import Mathlib

/-!
# Guitar Hero Live controller emulator

A shallow embedding of `rpcs3/Emu/Io/GHLtar.cpp`: the constructor that builds the
descriptor tree, the control-transfer handler and the interrupt-transfer handler that
synthesises the 27-byte HID report.

Conventions of the embedding.

* The report buffer `u8* buf` is a map from byte offsets to byte values (`Nat → Nat`);
  `buf_size` is passed next to it as in the source. Stores of `u8` values that can
  overflow are reduced `% 256`.
* The transfer record `UsbTransfer* transfer`, the buffer and the output of the log channel
  `ghltar_log` form the mutable state `Machine`, which is passed explicitly.
* A failed `ensure` or a failed bounds-checked `at32` lookup is a `Fault`; the handler
  returns the fault together with the state reached when it was raised.
* Everything the file reaches through headers that are not part of it (pad constants,
  the input handler, the per-slot configuration, the clock, the base class handler) is
  a parameter of the embedding.
-/

namespace GHLtar

/-! ## Data model -/

/-- Guitar-button identifiers: one constructor per case label of the switch over
`btn.value()` in `interrupt_transfer`, in the order of the labels. -/
inductive ghltar_btn where
  | w1
  | b1
  | b2
  | b3
  | w3
  | w2
  | strum_down
  | strum_up
  | dpad_left
  | dpad_right
  | start
  | hero_power
  | ghtv
  | count
  deriving DecidableEq, Fintype

/-- The fields of `Button` that the handler reads. -/
structure Button where
  m_offset : Nat
  m_outKeyCode : Nat
  m_pressed : Bool
  deriving DecidableEq

/-- The fields of `AnalogStick` that the handler reads; `m_value` is the raw unsigned
stick value. -/
structure AnalogStick where
  m_offset : Nat
  m_value : Nat
  deriving DecidableEq

/-- The fields of `Pad` that the handler reads. -/
structure Pad where
  m_port_status : Nat
  m_buttons : List Button
  m_sticks : List AnalogStick
  deriving DecidableEq

/-- Per-slot configuration entry (`cfg_ghltar`): only its lookup `find_button` is used,
keyed by the logical offset and the mapped key code of a button. -/
structure cfg_ghltar where
  find_button : Nat → Nat → Option ghltar_btn

/-- Named constants that the file takes from headers outside it. The two stick offsets
are case labels of one switch, hence distinct. -/
structure PadConsts where
  CELL_PAD_STATUS_CONNECTED : Nat
  CELL_PAD_BTN_OFFSET_ANALOG_RIGHT_X : Nat
  CELL_PAD_BTN_OFFSET_ANALOG_RIGHT_Y : Nat
  HC_CC_NOERR : Nat
  case_labels_distinct : CELL_PAD_BTN_OFFSET_ANALOG_RIGHT_Y ≠ CELL_PAD_BTN_OFFSET_ANALOG_RIGHT_X

/-- What the handler reads from its surroundings during one call: the global input gate
`is_input_allowed()`, the clock `get_timestamp()`, the pad list `handler->GetPads()` and
the configuration list `g_cfg_ghltar.players`. -/
structure InputEnv where
  is_input_allowed : Bool
  get_timestamp : Nat
  pads : List Pad
  players : List cfg_ghltar

/-- The fields of `UsbTransfer` that the handlers write. -/
structure UsbTransfer where
  fake : Bool
  expected_count : Nat
  expected_result : Nat
  expected_time : Nat
  deriving DecidableEq

/-- One `ghltar_log.error` entry of the form "Unhandled Query: ...", holding the four
format arguments in the order they are passed. -/
structure UnhandledQuery where
  buf_size : Nat
  first_byte : Int
  bRequest : Nat
  bmRequestType : Nat
  deriving DecidableEq

/-- The mutable state the handlers act on: the buffer behind `buf`, the record behind
`transfer`, and the entries written to `ghltar_log` so far. -/
structure Machine where
  buf : Nat → Nat
  transfer : UsbTransfer
  log : List UnhandledQuery

/-- The two ways a call can fault. -/
inductive Fault where
  | ensure_failed
  | range_error
  deriving DecidableEq

/-- Result of a handler call: how it ended and the state it left. -/
structure Outcome where
  result : Except Fault Unit
  machine : Machine

/-! ## Primitive operations -/

/-- The store `buf[i] = v`. -/
def write (buf : Nat → Nat) (i v : Nat) : Nat → Nat :=
  fun j => if j = i then v else buf j

/-- The call `memset(buf, c, n)`: the first `n` bytes become `c`. -/
def memset (buf : Nat → Nat) (c n : Nat) : Nat → Nat :=
  fun j => if j < n then c % 256 else buf j

/-- Conversion of an integer to `u8`. -/
def to_u8 (x : Int) : Nat :=
  (x % 256).toNat

/-- Modelled from the spec: `at32` is the bounds-checked element access declared outside
this file; the spec calls an out-of-range access a fatal programming error, so the model
faults when the index is not below the length. -/
def at32 {α : Type} (xs : List α) (i : Nat) : Except Fault α :=
  match xs[i]? with
  | some x => Except.ok x
  | none => Except.error Fault.range_error

/-! ## control_transfer -/

/-- The handler `usb_device_ghltar::control_transfer`. The base-class handler
`usb_device_emulated::control_transfer` is the parameter `base`; it receives the six
scalar arguments and the state that holds the buffer and the transfer record. -/
def control_transfer
    (base : Nat → Nat → Nat → Nat → Nat → Nat → Machine → Machine)
    (bmRequestType bRequest wValue wIndex wLength buf_size : Nat) (m : Machine) : Machine :=
  let m1 : Machine := { m with transfer := { m.transfer with fake := true } }
  if bmRequestType = 0x21 then
    if bRequest = 0x09 then
      m1
    else
      { m1 with
        log := m1.log ++
          [{ buf_size := buf_size
             first_byte := if buf_size > 0 then (m1.buf 0 : Int) else -1
             bRequest := bRequest
             bmRequestType := bmRequestType }] }
  else
    base bmRequestType bRequest wValue wIndex wLength buf_size m1

/-! ## interrupt_transfer -/

/-- The switch over `btn.value()`: the effect of one mapped, pressed button. -/
def button_case (btn : ghltar_btn) (buf : Nat → Nat) : Nat → Nat :=
  match btn with
  | ghltar_btn.w1 => write buf 0 ((buf 0 + 0x01) % 256)
  | ghltar_btn.b1 => write buf 0 ((buf 0 + 0x02) % 256)
  | ghltar_btn.b2 => write buf 0 ((buf 0 + 0x04) % 256)
  | ghltar_btn.b3 => write buf 0 ((buf 0 + 0x08) % 256)
  | ghltar_btn.w3 => write buf 0 ((buf 0 + 0x20) % 256)
  | ghltar_btn.w2 => write buf 0 ((buf 0 + 0x10) % 256)
  | ghltar_btn.strum_down => write buf 4 0xFF
  | ghltar_btn.strum_up => write buf 4 0x00
  | ghltar_btn.dpad_left => write buf 2 0x02
  | ghltar_btn.dpad_right => write buf 2 0x06
  | ghltar_btn.start => write buf 1 ((buf 1 + 0x02) % 256)
  | ghltar_btn.hero_power => write buf 1 ((buf 1 + 0x01) % 256)
  | ghltar_btn.ghtv => write buf 1 ((buf 1 + 0x04) % 256)
  | ghltar_btn.count => buf

/-- Body of the loop over `pad->m_buttons`. -/
def button_body (cfg : cfg_ghltar) (buf : Nat → Nat) (button : Button) : Nat → Nat :=
  if !button.m_pressed then
    buf
  else
    match cfg.find_button button.m_offset button.m_outKeyCode with
    | some btn => button_case btn buf
    | none => buf

/-- Body of the loop over `pad->m_sticks`: the switch over `stick.m_offset`. -/
def stick_body (K : PadConsts) (buf : Nat → Nat) (stick : AnalogStick) : Nat → Nat :=
  if stick.m_offset = K.CELL_PAD_BTN_OFFSET_ANALOG_RIGHT_Y then
    write buf 6 (to_u8 (~~~(stick.m_value : Int) + 0x01))
  else if stick.m_offset = K.CELL_PAD_BTN_OFFSET_ANALOG_RIGHT_X then
    let buf1 := write buf 19 (to_u8 (stick.m_value : Int))
    let buf2 := if buf1 19 ≥ 0xF0 then write buf1 5 0xFF else buf1
    let buf3 := if buf2 19 ≤ 0x10 then write buf2 5 0x00 else buf2
    buf3
  else
    buf

/-- The stores between the `memset` and the input gate: the rest-state defaults, in the
order of the source. -/
def rest_defaults (buf : Nat → Nat) : Nat → Nat :=
  let buf := write buf 0 0x00
  let buf := write buf 1 0x00
  let buf := write buf 2 0x0F
  let buf := write buf 4 0x80
  let buf := write buf 5 0x80
  let buf := write buf 6 0x80
  let buf := write buf 19 0x80
  let buf := write buf 3 0x80
  let buf := write buf 22 0x01
  let buf := write buf 24 0x02
  let buf := write buf 26 0x02
  buf

/-- The handler `usb_device_ghltar::interrupt_transfer`. The clock value is a `u64`, so
the addition of the delay is reduced `% 2 ^ 64`. -/
def interrupt_transfer (K : PadConsts) (env : InputEnv) (m_controller_index : Nat)
    (buf_size : Nat) (_endpoint : Nat) (m : Machine) : Outcome :=
  if ¬ (buf_size ≥ 27) then
    { result := Except.error Fault.ensure_failed, machine := m }
  else
    let transfer : UsbTransfer :=
      { m.transfer with
        fake := true
        expected_count := buf_size
        expected_result := K.HC_CC_NOERR
        expected_time := (env.get_timestamp + 1000) % 2 ^ 64 }
    let buf := rest_defaults (memset m.buf 0 buf_size)
    let m1 : Machine := { m with buf := buf, transfer := transfer }
    if !env.is_input_allowed then
      { result := Except.ok (), machine := m1 }
    else
      match at32 env.pads m_controller_index with
      | Except.error e => { result := Except.error e, machine := m1 }
      | Except.ok pad =>
        match at32 env.players m_controller_index with
        | Except.error e => { result := Except.error e, machine := m1 }
        | Except.ok cfg =>
          if pad.m_port_status &&& K.CELL_PAD_STATUS_CONNECTED = 0 then
            { result := Except.ok (), machine := m1 }
          else
            let buf := pad.m_buttons.foldl (button_body cfg) buf
            let buf := pad.m_sticks.foldl (stick_body K) buf
            { result := Except.ok (), machine := { m1 with buf := buf } }

/-- The state after the transfer record and the rest-state defaults have been written:
the state at the input gate. -/
def prepared (K : PadConsts) (env : InputEnv) (buf_size : Nat) (m : Machine) : Machine :=
  { m with
    buf := rest_defaults (memset m.buf 0 buf_size)
    transfer :=
      { m.transfer with
        fake := true
        expected_count := buf_size
        expected_result := K.HC_CC_NOERR
        expected_time := (env.get_timestamp + 1000) % 2 ^ 64 } }

/-! ## The constructor and the descriptor tree -/

/-- The descriptor type tags the constructor passes to `UsbDescriptorNode`. -/
inductive DescriptorType where
  | USB_DESCRIPTOR_DEVICE
  | USB_DESCRIPTOR_CONFIG
  | USB_DESCRIPTOR_INTERFACE
  | USB_DESCRIPTOR_HID
  | USB_DESCRIPTOR_ENDPOINT
  deriving DecidableEq

/-- Modelled from the spec: the device descriptor record is declared outside this file;
its fields are taken in the order of the aggregate initialiser, which is the order in
which the spec lists the values (USB version, class, subclass, protocol, ..., vendor,
product, device release, ..., number of configurations). -/
structure UsbDeviceDescriptor where
  bcdUSB : Nat
  bDeviceClass : Nat
  bDeviceSubClass : Nat
  bDeviceProtocol : Nat
  bMaxPacketSize0 : Nat
  idVendor : Nat
  idProduct : Nat
  bcdDevice : Nat
  iManufacturer : Nat
  iProduct : Nat
  iSerialNumber : Nat
  bNumConfigurations : Nat
  deriving DecidableEq

/-- Modelled from the spec: the configuration descriptor record, declared outside this
file (total length, number of interfaces, configuration value, string index, attributes,
max power). -/
structure UsbDeviceConfiguration where
  wTotalLength : Nat
  bNumInterfaces : Nat
  bConfigurationValue : Nat
  iConfiguration : Nat
  bmAttributes : Nat
  bMaxPower : Nat
  deriving DecidableEq

/-- Modelled from the spec: the interface descriptor record, declared outside this file
(interface number, alternate setting, number of endpoints, class, subclass, protocol,
string index). -/
structure UsbDeviceInterface where
  bInterfaceNumber : Nat
  bAlternateSetting : Nat
  bNumEndpoints : Nat
  bInterfaceClass : Nat
  bInterfaceSubClass : Nat
  bInterfaceProtocol : Nat
  iInterface : Nat
  deriving DecidableEq

/-- Modelled from the spec: the HID descriptor record, declared outside this file (HID
version, country code, number of report descriptors, descriptor type, length). -/
structure UsbDeviceHID where
  bcdHID : Nat
  bCountryCode : Nat
  bNumDescriptors : Nat
  bDescriptorType : Nat
  wDescriptorLength : Nat
  deriving DecidableEq

/-- Modelled from the spec: the endpoint descriptor record, declared outside this file
(endpoint address, attributes, max packet size, polling interval). -/
structure UsbDeviceEndpoint where
  bEndpointAddress : Nat
  bmAttributes : Nat
  wMaxPacketSize : Nat
  bInterval : Nat
  deriving DecidableEq

/-- The tagged payload of a descriptor node. -/
inductive UsbDescriptorData where
  | device (d : UsbDeviceDescriptor)
  | configuration (d : UsbDeviceConfiguration)
  | interface (d : UsbDeviceInterface)
  | hid (d : UsbDeviceHID)
  | endpoint (d : UsbDeviceEndpoint)
  deriving DecidableEq

/-- Modelled from the spec: a node of the descriptor tree, declared outside this file: a
type tag, a payload and the ordered list of its children. -/
inductive UsbDescriptorNode where
  | mk (bDescriptorType : DescriptorType) (data : UsbDescriptorData)
      (subnodes : List UsbDescriptorNode)

/-- The children of a node. -/
def UsbDescriptorNode.subnodes (node : UsbDescriptorNode) : List UsbDescriptorNode :=
  match node with
  | UsbDescriptorNode.mk _ _ subs => subs

/-- The payload of a node. -/
def UsbDescriptorNode.data (node : UsbDescriptorNode) : UsbDescriptorData :=
  match node with
  | UsbDescriptorNode.mk _ d _ => d

/-- Modelled from the spec: `add_node` is declared outside this file; it appends the new
node as the last child, and the reference it returns is that last child. -/
def UsbDescriptorNode.add_node (node newnode : UsbDescriptorNode) : UsbDescriptorNode :=
  match node with
  | UsbDescriptorNode.mk t d subs => UsbDescriptorNode.mk t d (subs ++ [newnode])

/-- An update through the reference returned by `add_node`: it acts on the last child. -/
def UsbDescriptorNode.on_back (node : UsbDescriptorNode)
    (f : UsbDescriptorNode → UsbDescriptorNode) : UsbDescriptorNode :=
  match node with
  | UsbDescriptorNode.mk t d subs =>
    match subs.reverse with
    | [] => UsbDescriptorNode.mk t d subs
    | last :: before => UsbDescriptorNode.mk t d (before.reverse ++ [f last])

/-- The members of the device object that the constructor sets. -/
structure usb_device_ghltar_members where
  location : List Nat
  m_controller_index : Nat
  device : UsbDescriptorNode

/-- The constructor `usb_device_ghltar::usb_device_ghltar`; `config0` is the reference to
the configuration node, the last child of `device`. -/
def usb_device_ghltar (controller_index : Nat) (location : List Nat) :
    usb_device_ghltar_members :=
  let device := UsbDescriptorNode.mk DescriptorType.USB_DESCRIPTOR_DEVICE
    (UsbDescriptorData.device
      ⟨0x0200, 0x00, 0x00, 0x00, 0x20, 0x12BA, 0x074B, 0x0100, 0x01, 0x02, 0x00, 0x01⟩) []
  let device := device.add_node (UsbDescriptorNode.mk DescriptorType.USB_DESCRIPTOR_CONFIG
    (UsbDescriptorData.configuration ⟨0x0029, 0x01, 0x01, 0x00, 0x80, 0x96⟩) [])
  let device := device.on_back (fun config0 =>
    config0.add_node (UsbDescriptorNode.mk DescriptorType.USB_DESCRIPTOR_INTERFACE
      (UsbDescriptorData.interface ⟨0x00, 0x00, 0x02, 0x03, 0x00, 0x00, 0x00⟩) []))
  let device := device.on_back (fun config0 =>
    config0.add_node (UsbDescriptorNode.mk DescriptorType.USB_DESCRIPTOR_HID
      (UsbDescriptorData.hid ⟨0x0111, 0x00, 0x01, 0x22, 0x001d⟩) []))
  let device := device.on_back (fun config0 =>
    config0.add_node (UsbDescriptorNode.mk DescriptorType.USB_DESCRIPTOR_ENDPOINT
      (UsbDescriptorData.endpoint ⟨0x81, 0x03, 0x0020, 0x01⟩) []))
  let device := device.on_back (fun config0 =>
    config0.add_node (UsbDescriptorNode.mk DescriptorType.USB_DESCRIPTOR_ENDPOINT
      (UsbDescriptorData.endpoint ⟨0x01, 0x03, 0x0020, 0x01⟩) []))
  { location := location, m_controller_index := controller_index, device := device }

/-- The descriptor tree the specification describes, written out. -/
def expected_tree : UsbDescriptorNode :=
  UsbDescriptorNode.mk DescriptorType.USB_DESCRIPTOR_DEVICE
    (UsbDescriptorData.device
      { bcdUSB := 0x0200, bDeviceClass := 0, bDeviceSubClass := 0, bDeviceProtocol := 0
        bMaxPacketSize0 := 0x20, idVendor := 0x12BA, idProduct := 0x074B, bcdDevice := 0x0100
        iManufacturer := 1, iProduct := 2, iSerialNumber := 0, bNumConfigurations := 1 })
    [UsbDescriptorNode.mk DescriptorType.USB_DESCRIPTOR_CONFIG
      (UsbDescriptorData.configuration
        { wTotalLength := 0x0029, bNumInterfaces := 1, bConfigurationValue := 1
          iConfiguration := 0, bmAttributes := 0x80, bMaxPower := 0x96 })
      [UsbDescriptorNode.mk DescriptorType.USB_DESCRIPTOR_INTERFACE
        (UsbDescriptorData.interface
          { bInterfaceNumber := 0, bAlternateSetting := 0, bNumEndpoints := 2
            bInterfaceClass := 0x03, bInterfaceSubClass := 0, bInterfaceProtocol := 0
            iInterface := 0 }) [],
       UsbDescriptorNode.mk DescriptorType.USB_DESCRIPTOR_HID
        (UsbDescriptorData.hid
          { bcdHID := 0x0111, bCountryCode := 0, bNumDescriptors := 1, bDescriptorType := 0x22
            wDescriptorLength := 0x001D }) [],
       UsbDescriptorNode.mk DescriptorType.USB_DESCRIPTOR_ENDPOINT
        (UsbDescriptorData.endpoint
          { bEndpointAddress := 0x81, bmAttributes := 0x03, wMaxPacketSize := 0x0020
            bInterval := 1 }) [],
       UsbDescriptorNode.mk DescriptorType.USB_DESCRIPTOR_ENDPOINT
        (UsbDescriptorData.endpoint
          { bEndpointAddress := 0x01, bmAttributes := 0x03, wMaxPacketSize := 0x0020
            bInterval := 1 }) []]]

/-! ## Vocabulary of the specification -/

/-- The rest-state report of the table in section 4.3, as a byte per offset. -/
def rest_report (i : Nat) : Nat :=
  if i = 2 then 0x0F
  else if i = 3 ∨ i = 4 ∨ i = 5 ∨ i = 6 ∨ i = 19 then 0x80
  else if i = 22 then 0x01
  else if i = 24 ∨ i = 26 then 0x02
  else 0x00

/-- The guitar buttons produced by a button list, in list order: for each pressed button
the value `find_button` returns for it, when it returns one. -/
def pressed_btns (cfg : cfg_ghltar) (buttons : List Button) : List ghltar_btn :=
  buttons.filterMap
    (fun b => if b.m_pressed then cfg.find_button b.m_offset b.m_outKeyCode else none)

/-- The fret bits of byte 0 as the specification lists them; 0 for a button that is not
a fret. -/
def fret_bit (btn : ghltar_btn) : Nat :=
  match btn with
  | ghltar_btn.w1 => 0x01
  | ghltar_btn.b1 => 0x02
  | ghltar_btn.b2 => 0x04
  | ghltar_btn.b3 => 0x08
  | ghltar_btn.w2 => 0x10
  | ghltar_btn.w3 => 0x20
  | _ => 0

/-- The six frets. -/
def is_fret (btn : ghltar_btn) : Bool :=
  match btn with
  | ghltar_btn.w1 => true
  | ghltar_btn.b1 => true
  | ghltar_btn.b2 => true
  | ghltar_btn.b3 => true
  | ghltar_btn.w2 => true
  | ghltar_btn.w3 => true
  | _ => false

/-- The menu bits of byte 1 as the specification lists them; 0 for any other button. -/
def menu_bit (btn : ghltar_btn) : Nat :=
  match btn with
  | ghltar_btn.start => 0x02
  | ghltar_btn.hero_power => 0x01
  | ghltar_btn.ghtv => 0x04
  | _ => 0

/-- Whether the configuration maps a button to a fret. -/
def maps_to_fret (cfg : cfg_ghltar) (b : Button) : Bool :=
  match cfg.find_button b.m_offset b.m_outKeyCode with
  | some btn => is_fret btn
  | none => false

/-- The pad with every button that the configuration maps to a fret released. -/
def release_frets (cfg : cfg_ghltar) (pad : Pad) : Pad :=
  { pad with
    m_buttons :=
      pad.m_buttons.map (fun b => if maps_to_fret cfg b then { b with m_pressed := false } else b) }

/-- The surrounding with the pad of one slot replaced. -/
def with_pad (env : InputEnv) (idx : Nat) (pad : Pad) : InputEnv :=
  { env with pads := env.pads.set idx pad }

/-- The switch of the button loop applied to a list of guitar buttons in order. -/
def apply_btns (btns : List ghltar_btn) (buf : Nat → Nat) : Nat → Nat :=
  btns.foldl (fun b btn => button_case btn b) buf

/-- The right-stick-X entries of a stick list, in list order. -/
def right_x_sticks (K : PadConsts) (sticks : List AnalogStick) : List AnalogStick :=
  sticks.filter (fun s => decide (s.m_offset = K.CELL_PAD_BTN_OFFSET_ANALOG_RIGHT_X))

/-- The right-stick-Y entries of a stick list, in list order. -/
def right_y_sticks (K : PadConsts) (sticks : List AnalogStick) : List AnalogStick :=
  sticks.filter (fun s => decide (s.m_offset = K.CELL_PAD_BTN_OFFSET_ANALOG_RIGHT_Y))

/-- What the handler does to the buffer after the rest-state defaults: nothing when the
input gate is closed, a lookup faults or the pad is not connected; the two loops otherwise. -/
def overlay (K : PadConsts) (env : InputEnv) (idx : Nat) (buf : Nat → Nat) : Nat → Nat :=
  if env.is_input_allowed then
    match env.pads[idx]?, env.players[idx]? with
    | some pad, some cfg =>
      if pad.m_port_status &&& K.CELL_PAD_STATUS_CONNECTED = 0 then buf
      else pad.m_sticks.foldl (stick_body K) (pad.m_buttons.foldl (button_body cfg) buf)
    | _, _ => buf
  else buf

/-- The menu buttons of byte 1. -/
def is_menu (btn : ghltar_btn) : Bool :=
  match btn with
  | ghltar_btn.start => true
  | ghltar_btn.hero_power => true
  | ghltar_btn.ghtv => true
  | _ => false

/-- The buttons whose effect is an addition to byte 0 or byte 1. -/
def is_accumulated (btn : ghltar_btn) : Bool :=
  is_fret btn || is_menu btn

/-- The two strum directions. -/
def is_strum (btn : ghltar_btn) : Bool :=
  match btn with
  | ghltar_btn.strum_down => true
  | ghltar_btn.strum_up => true
  | _ => false

/-- The two d-pad directions the handler knows. -/
def is_dpad (btn : ghltar_btn) : Bool :=
  match btn with
  | ghltar_btn.dpad_left => true
  | ghltar_btn.dpad_right => true
  | _ => false

/-- A button that can affect the report: pressed, and mapped by the configuration to a
guitar button other than the sentinel `count`. -/
def relevant_button (cfg : cfg_ghltar) (b : Button) : Bool :=
  b.m_pressed &&
    (match cfg.find_button b.m_offset b.m_outKeyCode with
     | some btn => decide (btn ≠ ghltar_btn.count)
     | none => false)

/-- A stick that can affect the report: its offset is right-stick-X or right-stick-Y. -/
def relevant_stick (K : PadConsts) (s : AnalogStick) : Bool :=
  decide (s.m_offset = K.CELL_PAD_BTN_OFFSET_ANALOG_RIGHT_X) ||
    decide (s.m_offset = K.CELL_PAD_BTN_OFFSET_ANALOG_RIGHT_Y)

/-- The strum byte the specification assigns to the last pressed strum direction: 0xFF for
strum-down, 0x00 for strum-up, and the given value when there is none. -/
def strum_value (neutral : Nat) (last : Option ghltar_btn) : Nat :=
  match last with
  | some ghltar_btn.strum_down => 0xFF
  | some ghltar_btn.strum_up => 0x00
  | _ => neutral

/-! ### The handler with bitwise OR in place of addition

The variant the specification proposes: the handler as above, with each `+=` on byte 0 and
byte 1 replaced by `|=` with the same constant. -/

/-- The button switch with `|=` in place of `+=`. -/
def button_case_or (btn : ghltar_btn) (buf : Nat → Nat) : Nat → Nat :=
  match btn with
  | ghltar_btn.w1 => write buf 0 ((buf 0 ||| 0x01) % 256)
  | ghltar_btn.b1 => write buf 0 ((buf 0 ||| 0x02) % 256)
  | ghltar_btn.b2 => write buf 0 ((buf 0 ||| 0x04) % 256)
  | ghltar_btn.b3 => write buf 0 ((buf 0 ||| 0x08) % 256)
  | ghltar_btn.w3 => write buf 0 ((buf 0 ||| 0x20) % 256)
  | ghltar_btn.w2 => write buf 0 ((buf 0 ||| 0x10) % 256)
  | ghltar_btn.strum_down => write buf 4 0xFF
  | ghltar_btn.strum_up => write buf 4 0x00
  | ghltar_btn.dpad_left => write buf 2 0x02
  | ghltar_btn.dpad_right => write buf 2 0x06
  | ghltar_btn.start => write buf 1 ((buf 1 ||| 0x02) % 256)
  | ghltar_btn.hero_power => write buf 1 ((buf 1 ||| 0x01) % 256)
  | ghltar_btn.ghtv => write buf 1 ((buf 1 ||| 0x04) % 256)
  | ghltar_btn.count => buf

/-- Body of the button loop of the OR variant. -/
def button_body_or (cfg : cfg_ghltar) (buf : Nat → Nat) (button : Button) : Nat → Nat :=
  if !button.m_pressed then
    buf
  else
    match cfg.find_button button.m_offset button.m_outKeyCode with
    | some btn => button_case_or btn buf
    | none => buf

/-- The OR variant of `interrupt_transfer`: the same handler, with `button_body_or` as
the body of the button loop. -/
def interrupt_transfer_or (K : PadConsts) (env : InputEnv) (m_controller_index : Nat)
    (buf_size : Nat) (_endpoint : Nat) (m : Machine) : Outcome :=
  if ¬ (buf_size ≥ 27) then
    { result := Except.error Fault.ensure_failed, machine := m }
  else
    let transfer : UsbTransfer :=
      { m.transfer with
        fake := true
        expected_count := buf_size
        expected_result := K.HC_CC_NOERR
        expected_time := (env.get_timestamp + 1000) % 2 ^ 64 }
    let buf := rest_defaults (memset m.buf 0 buf_size)
    let m1 : Machine := { m with buf := buf, transfer := transfer }
    if !env.is_input_allowed then
      { result := Except.ok (), machine := m1 }
    else
      match at32 env.pads m_controller_index with
      | Except.error e => { result := Except.error e, machine := m1 }
      | Except.ok pad =>
        match at32 env.players m_controller_index with
        | Except.error e => { result := Except.error e, machine := m1 }
        | Except.ok cfg =>
          if pad.m_port_status &&& K.CELL_PAD_STATUS_CONNECTED = 0 then
            { result := Except.ok (), machine := m1 }
          else
            let buf := pad.m_buttons.foldl (button_body_or cfg) buf
            let buf := pad.m_sticks.foldl (stick_body K) buf
            { result := Except.ok (), machine := { m1 with buf := buf } }

/-- The OR switch applied to a list of guitar buttons in order. -/
def apply_btns_or (btns : List ghltar_btn) (buf : Nat → Nat) : Nat → Nat :=
  btns.foldl (fun b btn => button_case_or btn b) buf

/-- A sample set of constants. -/
def sampleConsts : PadConsts :=
  { CELL_PAD_STATUS_CONNECTED := 1
    CELL_PAD_BTN_OFFSET_ANALOG_RIGHT_X := 4
    CELL_PAD_BTN_OFFSET_ANALOG_RIGHT_Y := 5
    HC_CC_NOERR := 0
    case_labels_distinct := by decide }

/-- A sample initial state: a buffer full of 0xAA, a blank transfer record, an empty log. -/
def sampleMachine : Machine :=
  { buf := fun _ => 0xAA
    transfer := { fake := false, expected_count := 0, expected_result := 7, expected_time := 0 }
    log := [] }

/-- A sample configuration: at logical offset 0 the key codes 0 to 13 map to the
guitar buttons in the order of the switch labels; nothing else is mapped. -/
def sampleCfg : cfg_ghltar :=
  { find_button := fun off key =>
      if off = 0 then
        [ghltar_btn.w1, ghltar_btn.b1, ghltar_btn.b2, ghltar_btn.b3, ghltar_btn.w3,
          ghltar_btn.w2, ghltar_btn.strum_down, ghltar_btn.strum_up, ghltar_btn.dpad_left,
          ghltar_btn.dpad_right, ghltar_btn.start, ghltar_btn.hero_power, ghltar_btn.ghtv,
          ghltar_btn.count][key]?
      else none }

/-- A sample connected pad: B1, B2 and W1 pressed, B3 released, one pressed button without
a mapping, tilt at 0xFF, whammy at 0x01 and one left-stick entry. -/
def samplePad : Pad :=
  { m_port_status := 1
    m_buttons :=
      [{ m_offset := 0, m_outKeyCode := 1, m_pressed := true },
       { m_offset := 0, m_outKeyCode := 2, m_pressed := true },
       { m_offset := 9, m_outKeyCode := 9, m_pressed := true },
       { m_offset := 0, m_outKeyCode := 3, m_pressed := false },
       { m_offset := 0, m_outKeyCode := 0, m_pressed := true }]
    m_sticks :=
      [{ m_offset := 6, m_value := 77 },
       { m_offset := 4, m_value := 0xFF },
       { m_offset := 5, m_value := 0x01 }] }

/-- The sample pad with the connected flag cleared. -/
def sampleUnpluggedPad : Pad :=
  { samplePad with m_port_status := 0 }

/-- A sample surrounding: input allowed, clock at 5000, slot 0 bound to the sample pad. -/
def sampleEnv : InputEnv :=
  { is_input_allowed := true
    get_timestamp := 5000
    pads := [samplePad]
    players := [sampleCfg] }

/-- The sample surrounding with the input gate closed. -/
def sampleEnvGated : InputEnv :=
  { sampleEnv with is_input_allowed := false }

/-- The sample surrounding with the pad of slot 0 unplugged. -/
def sampleEnvUnplugged : InputEnv :=
  { sampleEnv with pads := [sampleUnpluggedPad] }

/-- A surrounding with seven pads and eight configuration entries, input allowed. -/
def sampleEnvSevenPads : InputEnv :=
  { is_input_allowed := true
    get_timestamp := 5000
    pads := List.replicate 7 samplePad
    players := List.replicate 8 sampleCfg }

/-- A sample base-class handler: it records the request length in the transfer record
and leaves everything else alone. -/
def sampleBase (_bmRequestType _bRequest _wValue _wIndex wLength _buf_size : Nat)
    (m : Machine) : Machine :=
  { m with transfer := { m.transfer with expected_count := wLength } }

/-- A sample configuration in which two key codes at offset 0 both map to W1. -/
def sampleCfgShared : cfg_ghltar :=
  { find_button := fun off key =>
      if off = 0 ∧ (key = 0 ∨ key = 20) then some ghltar_btn.w1 else none }

/-- A sample connected pad with two pressed buttons and no sticks. -/
def samplePadTwoKeys : Pad :=
  { m_port_status := 1
    m_buttons :=
      [{ m_offset := 0, m_outKeyCode := 0, m_pressed := true },
       { m_offset := 0, m_outKeyCode := 20, m_pressed := true }]
    m_sticks := [] }

/-- A surrounding in which both pressed buttons of slot 0 map to W1. -/
def sampleEnvShared : InputEnv :=
  { is_input_allowed := true
    get_timestamp := 5000
    pads := [samplePadTwoKeys]
    players := [sampleCfgShared] }

/-- A sample connected pad with both strum directions pressed, strum-up last, a pressed
button mapped to `count`, an unmapped pressed button, a released fret and neutral sticks. -/
def samplePadStrum : Pad :=
  { m_port_status := 1
    m_buttons :=
      [{ m_offset := 0, m_outKeyCode := 6, m_pressed := true },
       { m_offset := 0, m_outKeyCode := 13, m_pressed := true },
       { m_offset := 0, m_outKeyCode := 7, m_pressed := true },
       { m_offset := 9, m_outKeyCode := 9, m_pressed := true },
       { m_offset := 0, m_outKeyCode := 3, m_pressed := false }]
    m_sticks :=
      [{ m_offset := 6, m_value := 77 },
       { m_offset := 4, m_value := 0x80 },
       { m_offset := 5, m_value := 0x80 }] }

/-- The sample surrounding with slot 0 bound to the strum pad. -/
def sampleEnvStrum : InputEnv :=
  { sampleEnv with pads := [samplePadStrum] }

/-- A sample connected pad at rest: only unmapped or released buttons, neutral sticks. -/
def samplePadAtRest : Pad :=
  { m_port_status := 1
    m_buttons :=
      [{ m_offset := 9, m_outKeyCode := 9, m_pressed := true },
       { m_offset := 0, m_outKeyCode := 3, m_pressed := false }]
    m_sticks :=
      [{ m_offset := 6, m_value := 77 },
       { m_offset := 4, m_value := 0x80 },
       { m_offset := 5, m_value := 0x80 }] }

/-- The sample surrounding with slot 0 bound to the pad at rest. -/
def sampleEnvAtRest : InputEnv :=
  { sampleEnv with pads := [samplePadAtRest] }

/-! ## Basic facts -/

theorem memset_lt (buf : Nat → Nat) (n i : Nat) (hi : i < n) : memset buf 0 n i = 0 := by
  simp [memset, hi]

theorem memset_ge (buf : Nat → Nat) (c n i : Nat) (hi : n ≤ i) : memset buf c n i = buf i := by
  simp [memset, Nat.not_lt.mpr hi]

theorem rest_defaults_apply (buf : Nat → Nat) (i : Nat) :
    rest_defaults buf i =
      if i = 26 then 0x02 else if i = 24 then 0x02 else if i = 22 then 0x01
      else if i = 3 then 0x80 else if i = 19 then 0x80 else if i = 6 then 0x80
      else if i = 5 then 0x80 else if i = 4 then 0x80 else if i = 2 then 0x0F
      else if i = 1 then 0x00 else if i = 0 then 0x00 else buf i := rfl

/-- The default stores touch no offset from 27 on. -/
theorem rest_defaults_high (buf : Nat → Nat) (i : Nat) (hi : 27 ≤ i) :
    rest_defaults buf i = buf i := by
  have far : ∀ k, k < 27 → ¬ i = k := fun k hk e => by omega
  rw [rest_defaults_apply]
  simp only [far 26 (by decide), far 24 (by decide), far 22 (by decide), far 3 (by decide),
    far 19 (by decide), far 6 (by decide), far 5 (by decide), far 4 (by decide),
    far 2 (by decide), far 1 (by decide), far 0 (by decide), if_false]

theorem rest_defaults_memset (buf : Nat → Nat) (n i : Nat) (hi : i < n) :
    rest_defaults (memset buf 0 n) i = rest_report i := by
  rw [rest_defaults_apply, memset_lt buf n i hi]
  unfold rest_report
  by_cases h26 : i = 26
  · subst h26; rfl
  by_cases h24 : i = 24
  · subst h24; rfl
  by_cases h22 : i = 22
  · subst h22; rfl
  by_cases h3 : i = 3
  · subst h3; rfl
  by_cases h19 : i = 19
  · subst h19; rfl
  by_cases h6 : i = 6
  · subst h6; rfl
  by_cases h5 : i = 5
  · subst h5; rfl
  by_cases h4 : i = 4
  · subst h4; rfl
  by_cases h2 : i = 2
  · subst h2; rfl
  simp [h26, h24, h22, h3, h19, h6, h5, h4, h2]

theorem at32_eq_ok {α : Type} (xs : List α) (i : Nat) (x : α) (h : xs[i]? = some x) :
    at32 xs i = Except.ok x := by
  simp [at32, h]

theorem at32_eq_error {α : Type} (xs : List α) (i : Nat) (h : xs.length ≤ i) :
    at32 xs i = Except.error Fault.range_error := by
  simp [at32, List.getElem?_eq_none h]

theorem interrupt_transfer_small (K : PadConsts) (env : InputEnv) (idx n ep : Nat) (m : Machine)
    (hn : n < 27) :
    interrupt_transfer K env idx n ep m =
      { result := Except.error Fault.ensure_failed, machine := m } := by
  have h : ¬ (n ≥ 27) := by omega
  simp [interrupt_transfer, h]

theorem interrupt_transfer_gate (K : PadConsts) (env : InputEnv) (idx n ep : Nat) (m : Machine)
    (hn : 27 ≤ n) (hgate : env.is_input_allowed = false) :
    interrupt_transfer K env idx n ep m =
      { result := Except.ok (), machine := prepared K env n m } := by
  simp [interrupt_transfer, hn, hgate, prepared]

theorem interrupt_transfer_no_pad (K : PadConsts) (env : InputEnv) (idx n ep : Nat) (m : Machine)
    (hn : 27 ≤ n) (hallow : env.is_input_allowed = true) (hidx : env.pads.length ≤ idx) :
    interrupt_transfer K env idx n ep m =
      { result := Except.error Fault.range_error, machine := prepared K env n m } := by
  simp [interrupt_transfer, hn, hallow, prepared, at32_eq_error env.pads idx hidx]

theorem interrupt_transfer_no_cfg (K : PadConsts) (env : InputEnv) (idx n ep : Nat) (m : Machine)
    (hn : 27 ≤ n) (hallow : env.is_input_allowed = true) (hpad : idx < env.pads.length)
    (hidx : env.players.length ≤ idx) :
    interrupt_transfer K env idx n ep m =
      { result := Except.error Fault.range_error, machine := prepared K env n m } := by
  have h1 : env.pads[idx]? = some env.pads[idx] := List.getElem?_eq_getElem hpad
  simp [interrupt_transfer, hn, hallow, prepared, at32_eq_ok env.pads idx _ h1,
    at32_eq_error env.players idx hidx]

theorem interrupt_transfer_unplugged_eq (K : PadConsts) (env : InputEnv) (idx n ep : Nat)
    (m : Machine) (pad : Pad) (cfg : cfg_ghltar)
    (hn : 27 ≤ n) (hallow : env.is_input_allowed = true)
    (hpad : env.pads[idx]? = some pad) (hcfg : env.players[idx]? = some cfg)
    (hdisc : pad.m_port_status &&& K.CELL_PAD_STATUS_CONNECTED = 0) :
    interrupt_transfer K env idx n ep m =
      { result := Except.ok (), machine := prepared K env n m } := by
  simp [interrupt_transfer, hn, hallow, prepared, at32_eq_ok env.pads idx pad hpad,
    at32_eq_ok env.players idx cfg hcfg, hdisc]

theorem interrupt_transfer_live (K : PadConsts) (env : InputEnv) (idx n ep : Nat)
    (m : Machine) (pad : Pad) (cfg : cfg_ghltar)
    (hn : 27 ≤ n) (hallow : env.is_input_allowed = true)
    (hpad : env.pads[idx]? = some pad) (hcfg : env.players[idx]? = some cfg)
    (hconn : pad.m_port_status &&& K.CELL_PAD_STATUS_CONNECTED ≠ 0) :
    interrupt_transfer K env idx n ep m =
      { result := Except.ok ()
        machine :=
          { prepared K env n m with
            buf := pad.m_sticks.foldl (stick_body K)
              (pad.m_buttons.foldl (button_body cfg) (rest_defaults (memset m.buf 0 n))) } } := by
  simp [interrupt_transfer, hn, hallow, prepared, at32_eq_ok env.pads idx pad hpad,
    at32_eq_ok env.players idx cfg hcfg, hconn]

/-! ## The button loop -/

theorem button_loop_eq (cfg : cfg_ghltar) (buttons : List Button) (buf : Nat → Nat) :
    buttons.foldl (button_body cfg) buf = apply_btns (pressed_btns cfg buttons) buf := by
  induction buttons generalizing buf with
  | nil => rfl
  | cons b rest ih =>
    rw [List.foldl_cons, ih]
    cases hp : b.m_pressed with
    | false => simp [button_body, pressed_btns, hp]
    | true =>
      cases hf : cfg.find_button b.m_offset b.m_outKeyCode with
      | none => simp [button_body, pressed_btns, hp, hf]
      | some btn => simp [button_body, pressed_btns, hp, hf, apply_btns]

theorem apply_btns_cons (btn : ghltar_btn) (btns : List ghltar_btn) (buf : Nat → Nat) :
    apply_btns (btn :: btns) buf = apply_btns btns (button_case btn buf) := rfl

theorem button_case_byte0 (btn : ghltar_btn) (buf : Nat → Nat) (h : buf 0 < 256) :
    button_case btn buf 0 = (buf 0 + fret_bit btn) % 256 := by
  cases btn <;> simp [button_case, write, fret_bit] <;> omega

theorem button_case_byte1 (btn : ghltar_btn) (buf : Nat → Nat) (h : buf 1 < 256) :
    button_case btn buf 1 = (buf 1 + menu_bit btn) % 256 := by
  cases btn <;> simp [button_case, write, menu_bit] <;> omega

theorem button_case_frame (btn : ghltar_btn) (buf : Nat → Nat) (i : Nat)
    (h0 : i ≠ 0) (h1 : i ≠ 1) (h2 : i ≠ 2) (h4 : i ≠ 4) : button_case btn buf i = buf i := by
  cases btn <;> simp [button_case, write, h0, h1, h2, h4]

theorem apply_btns_frame (btns : List ghltar_btn) (buf : Nat → Nat) (i : Nat)
    (h0 : i ≠ 0) (h1 : i ≠ 1) (h2 : i ≠ 2) (h4 : i ≠ 4) : apply_btns btns buf i = buf i := by
  induction btns generalizing buf with
  | nil => rfl
  | cons btn rest ih => rw [apply_btns_cons, ih, button_case_frame btn buf i h0 h1 h2 h4]

theorem apply_btns_byte0 (btns : List ghltar_btn) (buf : Nat → Nat) (h : buf 0 < 256) :
    apply_btns btns buf 0 = (buf 0 + (btns.map fret_bit).sum) % 256 := by
  induction btns generalizing buf with
  | nil => simp [apply_btns, Nat.mod_eq_of_lt h]
  | cons btn rest ih =>
    have hlt : button_case btn buf 0 < 256 := by
      rw [button_case_byte0 btn buf h]; exact Nat.mod_lt _ (by decide)
    rw [apply_btns_cons, ih _ hlt, button_case_byte0 btn buf h, List.map_cons, List.sum_cons]
    omega

theorem apply_btns_byte1 (btns : List ghltar_btn) (buf : Nat → Nat) (h : buf 1 < 256) :
    apply_btns btns buf 1 = (buf 1 + (btns.map menu_bit).sum) % 256 := by
  induction btns generalizing buf with
  | nil => simp [apply_btns, Nat.mod_eq_of_lt h]
  | cons btn rest ih =>
    have hlt : button_case btn buf 1 < 256 := by
      rw [button_case_byte1 btn buf h]; exact Nat.mod_lt _ (by decide)
    rw [apply_btns_cons, ih _ hlt, button_case_byte1 btn buf h, List.map_cons, List.sum_cons]
    omega

/-- Two buffers that agree below `n` still agree below `n` after the same button. -/
theorem button_case_congr (btn : ghltar_btn) (buf buf2 : Nat → Nat) (n : Nat) (hn : 27 ≤ n)
    (h : ∀ i, i < n → buf i = buf2 i) : ∀ i, i < n → button_case btn buf i = button_case btn buf2 i := by
  intro i hi
  have e0 : buf 0 = buf2 0 := h 0 (by omega)
  have e1 : buf 1 = buf2 1 := h 1 (by omega)
  have ei : buf i = buf2 i := h i hi
  cases btn <;> simp [button_case, write, e0, e1, ei]

theorem apply_btns_congr (btns : List ghltar_btn) (buf buf2 : Nat → Nat) (n : Nat) (hn : 27 ≤ n)
    (h : ∀ i, i < n → buf i = buf2 i) : ∀ i, i < n → apply_btns btns buf i = apply_btns btns buf2 i := by
  induction btns generalizing buf buf2 with
  | nil => exact h
  | cons btn rest ih =>
    intro i hi
    rw [apply_btns_cons, apply_btns_cons]
    exact ih _ _ (button_case_congr btn buf buf2 n hn h) i hi

/-- Away from byte 0 the fret buttons have no effect: dropping them from the list leaves
every other byte as it was. -/
theorem apply_btns_drop_frets (btns : List ghltar_btn) (buf buf2 : Nat → Nat)
    (h : ∀ i, i ≠ 0 → buf i = buf2 i) :
    ∀ i, i ≠ 0 → apply_btns btns buf i = apply_btns (btns.filter (fun b => !is_fret b)) buf2 i := by
  induction btns generalizing buf buf2 with
  | nil => exact h
  | cons btn rest ih =>
    intro i hi
    rw [apply_btns_cons]
    cases hf : is_fret btn with
    | true =>
      have hfil : (btn :: rest).filter (fun b => !is_fret b) = rest.filter (fun b => !is_fret b) := by
        simp [List.filter_cons, hf]
      rw [hfil]
      refine ih _ _ ?_ i hi
      intro j hj
      rw [← h j hj]
      cases btn <;> simp [is_fret] at hf <;> simp [button_case, write, hj]
    | false =>
      have hfil : (btn :: rest).filter (fun b => !is_fret b)
          = btn :: rest.filter (fun b => !is_fret b) := by
        simp [List.filter_cons, hf]
      rw [hfil, apply_btns_cons]
      refine ih _ _ ?_ i hi
      intro j hj
      have e1 : buf 1 = buf2 1 := h 1 (by decide)
      have ej : buf j = buf2 j := h j hj
      cases btn <;> simp [is_fret] at hf <;> simp [button_case, write, e1, ej]

/-! ## Frets -/

theorem fret_bit_of_not_fret (btn : ghltar_btn) (h : is_fret btn = false) : fret_bit btn = 0 := by
  cases btn <;> simp [is_fret] at h <;> rfl

theorem sum_fret_bit_filter (btns : List ghltar_btn) :
    ((btns.filter is_fret).map fret_bit).sum = (btns.map fret_bit).sum := by
  induction btns with
  | nil => rfl
  | cons btn rest ih =>
    cases hf : is_fret btn with
    | true => simp [List.filter_cons, hf, ih]
    | false => simp [List.filter_cons, hf, ih, fret_bit_of_not_fret btn hf]

/-- Distinct buttons contribute distinct fret bits, so their sum stays within 0x3F. -/
theorem sum_fret_bit_le (btns : List ghltar_btn) (h : btns.Nodup) :
    (btns.map fret_bit).sum ≤ 0x3F := by
  rw [← List.sum_toFinset fret_bit h]
  calc btns.toFinset.sum fret_bit
      ≤ (Finset.univ : Finset ghltar_btn).sum fret_bit :=
        Finset.sum_le_sum_of_subset (Finset.subset_univ _)
    _ = 0x3F := by decide

theorem pressed_btns_release_frets (cfg : cfg_ghltar) (pad : Pad) :
    pressed_btns cfg (release_frets cfg pad).m_buttons
      = (pressed_btns cfg pad.m_buttons).filter (fun b => !is_fret b) := by
  unfold release_frets
  simp only
  induction pad.m_buttons with
  | nil => rfl
  | cons b rest ih =>
    have ih2 : pressed_btns cfg
        (rest.map (fun b => if maps_to_fret cfg b then { b with m_pressed := false } else b))
        = (pressed_btns cfg rest).filter (fun b => !is_fret b) := ih
    cases hp : b.m_pressed with
    | false =>
      have : pressed_btns cfg (b :: rest) = pressed_btns cfg rest := by
        simp [pressed_btns, hp]
      rw [this, ← ih2]
      cases hm : maps_to_fret cfg b <;> simp [pressed_btns, hm, hp]
    | true =>
      cases hf : cfg.find_button b.m_offset b.m_outKeyCode with
      | none =>
        have hm : maps_to_fret cfg b = false := by simp [maps_to_fret, hf]
        have : pressed_btns cfg (b :: rest) = pressed_btns cfg rest := by
          simp [pressed_btns, hp, hf]
        rw [this, ← ih2]
        simp [pressed_btns, hm, hp, hf]
      | some btn =>
        have hcons : pressed_btns cfg (b :: rest) = btn :: pressed_btns cfg rest := by
          simp [pressed_btns, hp, hf]
        rw [hcons]
        cases hfr : is_fret btn with
        | true =>
          have hm : maps_to_fret cfg b = true := by simp [maps_to_fret, hf, hfr]
          rw [List.filter_cons]
          simp only [hfr, Bool.not_true, Bool.false_eq_true, if_false]
          rw [← ih2]
          simp [pressed_btns, hm]
        | false =>
          have hm : maps_to_fret cfg b = false := by simp [maps_to_fret, hf, hfr]
          rw [List.filter_cons]
          simp only [hfr, Bool.not_false, if_true]
          rw [← ih2]
          simp [pressed_btns, hm, hp, hf]

/-! ## The stick loop -/

theorem to_u8_cast (v : Nat) : to_u8 (v : Int) = v % 256 := by
  unfold to_u8
  omega

theorem to_u8_neg (v : Nat) : to_u8 (~~~(v : Int) + 0x01) = (256 - v % 256) % 256 := by
  have h : ~~~(v : Int) = -(v : Int) - 1 := by
    show Int.not (v : Int) = _
    simp only [Int.not, Int.negSucc_eq]
    omega
  unfold to_u8
  rw [h]
  omega

theorem write_apply (buf : Nat → Nat) (i v j : Nat) :
    write buf i v j = if j = i then v else buf j := rfl

/-- The stick switch, byte by byte. -/
theorem stick_body_apply (K : PadConsts) (buf : Nat → Nat) (s : AnalogStick) (j : Nat) :
    stick_body K buf s j =
      if s.m_offset = K.CELL_PAD_BTN_OFFSET_ANALOG_RIGHT_Y then
        (if j = 6 then (256 - s.m_value % 256) % 256 else buf j)
      else if s.m_offset = K.CELL_PAD_BTN_OFFSET_ANALOG_RIGHT_X then
        (if j = 5 then
          (if s.m_value % 256 ≥ 0xF0 then 0xFF
           else if s.m_value % 256 ≤ 0x10 then 0x00 else buf 5)
         else if j = 19 then s.m_value % 256 else buf j)
      else buf j := by
  unfold stick_body
  by_cases hy : s.m_offset = K.CELL_PAD_BTN_OFFSET_ANALOG_RIGHT_Y
  · rw [if_pos hy, if_pos hy, write_apply, to_u8_neg]
  · rw [if_neg hy, if_neg hy]
    by_cases hx : s.m_offset = K.CELL_PAD_BTN_OFFSET_ANALOG_RIGHT_X
    · rw [if_pos hx, if_pos hx]
      simp only [ite_apply, to_u8_cast, write_apply, if_true]
      split_ifs <;> first | rfl | omega | (subst_vars; rfl)
    · rw [if_neg hx, if_neg hx]

theorem stick_body_frame (K : PadConsts) (buf : Nat → Nat) (s : AnalogStick) (i : Nat)
    (h5 : i ≠ 5) (h6 : i ≠ 6) (h19 : i ≠ 19) : stick_body K buf s i = buf i := by
  rw [stick_body_apply]
  simp [h5, h6, h19]

theorem stick_loop_frame (K : PadConsts) (sticks : List AnalogStick) (buf : Nat → Nat) (i : Nat)
    (h5 : i ≠ 5) (h6 : i ≠ 6) (h19 : i ≠ 19) : sticks.foldl (stick_body K) buf i = buf i := by
  induction sticks generalizing buf with
  | nil => rfl
  | cons s rest ih => rw [List.foldl_cons, ih, stick_body_frame K buf s i h5 h6 h19]

theorem stick_body_congr (K : PadConsts) (s : AnalogStick) (buf buf2 : Nat → Nat)
    (P : Nat → Prop) (h5 : P 5) (h : ∀ i, P i → buf i = buf2 i) :
    ∀ i, P i → stick_body K buf s i = stick_body K buf2 s i := by
  intro i hi
  have ei : buf i = buf2 i := h i hi
  have e5 : buf 5 = buf2 5 := h 5 h5
  rw [stick_body_apply, stick_body_apply, ei, e5]

/-- Two buffers that agree on a set of offsets containing offset 5 still agree on it
after the stick loop. -/
theorem stick_loop_congr (K : PadConsts) (sticks : List AnalogStick) (buf buf2 : Nat → Nat)
    (P : Nat → Prop) (h5 : P 5) (h : ∀ i, P i → buf i = buf2 i) :
    ∀ i, P i → sticks.foldl (stick_body K) buf i = sticks.foldl (stick_body K) buf2 i := by
  induction sticks generalizing buf buf2 with
  | nil => exact h
  | cons s rest ih =>
    intro i hi
    rw [List.foldl_cons, List.foldl_cons]
    exact ih _ _ (stick_body_congr K s buf buf2 P h5 h) i hi

theorem stick_body_whammy (K : PadConsts) (buf : Nat → Nat) (s : AnalogStick)
    (h : s.m_offset = K.CELL_PAD_BTN_OFFSET_ANALOG_RIGHT_Y) :
    stick_body K buf s 6 = (256 - s.m_value % 256) % 256 := by
  rw [stick_body_apply, if_pos h, if_pos rfl]

theorem stick_body_not_whammy (K : PadConsts) (buf : Nat → Nat) (s : AnalogStick)
    (h : s.m_offset ≠ K.CELL_PAD_BTN_OFFSET_ANALOG_RIGHT_Y) :
    stick_body K buf s 6 = buf 6 := by
  rw [stick_body_apply, if_neg h]
  simp

theorem stick_body_tilt (K : PadConsts) (buf : Nat → Nat) (s : AnalogStick)
    (h : s.m_offset = K.CELL_PAD_BTN_OFFSET_ANALOG_RIGHT_X) :
    stick_body K buf s 19 = s.m_value % 256 ∧
    stick_body K buf s 5 =
      if s.m_value % 256 ≥ 0xF0 then 0xFF
      else if s.m_value % 256 ≤ 0x10 then 0x00 else buf 5 := by
  have hne : s.m_offset ≠ K.CELL_PAD_BTN_OFFSET_ANALOG_RIGHT_Y := by
    rw [h]; exact fun e => K.case_labels_distinct e.symm
  rw [stick_body_apply, stick_body_apply, if_neg hne, if_neg hne, if_pos h, if_pos h]
  exact ⟨by simp, by simp⟩

theorem stick_body_not_tilt (K : PadConsts) (buf : Nat → Nat) (s : AnalogStick)
    (h : s.m_offset ≠ K.CELL_PAD_BTN_OFFSET_ANALOG_RIGHT_X) :
    stick_body K buf s 19 = buf 19 ∧ stick_body K buf s 5 = buf 5 := by
  rw [stick_body_apply, stick_body_apply, if_neg h, if_neg h]
  exact ⟨by simp, by simp⟩

theorem stick_loop_no_whammy (K : PadConsts) (sticks : List AnalogStick) (buf : Nat → Nat)
    (h : right_y_sticks K sticks = []) : sticks.foldl (stick_body K) buf 6 = buf 6 := by
  induction sticks generalizing buf with
  | nil => rfl
  | cons s rest ih =>
    by_cases hs : s.m_offset = K.CELL_PAD_BTN_OFFSET_ANALOG_RIGHT_Y
    · simp [right_y_sticks, List.filter_cons, hs] at h
    · have hrest : right_y_sticks K rest = [] := by
        simpa [right_y_sticks, List.filter_cons, hs] using h
      rw [List.foldl_cons, ih _ hrest, stick_body_not_whammy K buf s hs]

theorem stick_loop_one_whammy (K : PadConsts) (sticks : List AnalogStick) (buf : Nat → Nat)
    (s : AnalogStick) (h : right_y_sticks K sticks = [s]) :
    sticks.foldl (stick_body K) buf 6 = (256 - s.m_value % 256) % 256 := by
  induction sticks generalizing buf with
  | nil => simp [right_y_sticks] at h
  | cons a rest ih =>
    rw [List.foldl_cons]
    by_cases hs : a.m_offset = K.CELL_PAD_BTN_OFFSET_ANALOG_RIGHT_Y
    · have h2 : a = s ∧ right_y_sticks K rest = [] := by
        simpa [right_y_sticks, List.filter_cons, hs] using h
      rw [stick_loop_no_whammy K rest _ h2.2, ← h2.1, stick_body_whammy K buf a hs]
    · have hrest : right_y_sticks K rest = [s] := by
        simpa [right_y_sticks, List.filter_cons, hs] using h
      exact ih _ hrest

theorem stick_loop_no_tilt (K : PadConsts) (sticks : List AnalogStick) (buf : Nat → Nat)
    (h : right_x_sticks K sticks = []) :
    sticks.foldl (stick_body K) buf 19 = buf 19 ∧ sticks.foldl (stick_body K) buf 5 = buf 5 := by
  induction sticks generalizing buf with
  | nil => exact ⟨rfl, rfl⟩
  | cons s rest ih =>
    by_cases hs : s.m_offset = K.CELL_PAD_BTN_OFFSET_ANALOG_RIGHT_X
    · simp [right_x_sticks, List.filter_cons, hs] at h
    · have hrest : right_x_sticks K rest = [] := by
        simpa [right_x_sticks, List.filter_cons, hs] using h
      rw [List.foldl_cons, (ih _ hrest).1, (ih _ hrest).2]
      exact stick_body_not_tilt K buf s hs

theorem stick_loop_one_tilt (K : PadConsts) (sticks : List AnalogStick) (buf : Nat → Nat)
    (s : AnalogStick) (h : right_x_sticks K sticks = [s]) :
    sticks.foldl (stick_body K) buf 19 = s.m_value % 256 ∧
    sticks.foldl (stick_body K) buf 5 =
      if s.m_value % 256 ≥ 0xF0 then 0xFF
      else if s.m_value % 256 ≤ 0x10 then 0x00 else buf 5 := by
  induction sticks generalizing buf with
  | nil => simp [right_x_sticks] at h
  | cons a rest ih =>
    rw [List.foldl_cons]
    by_cases hs : a.m_offset = K.CELL_PAD_BTN_OFFSET_ANALOG_RIGHT_X
    · have h2 : a = s ∧ right_x_sticks K rest = [] := by
        simpa [right_x_sticks, List.filter_cons, hs] using h
      rw [(stick_loop_no_tilt K rest _ h2.2).1, (stick_loop_no_tilt K rest _ h2.2).2, ← h2.1]
      exact stick_body_tilt K buf a hs
    · have hrest : right_x_sticks K rest = [s] := by
        simpa [right_x_sticks, List.filter_cons, hs] using h
      rw [(ih _ hrest).1, (ih _ hrest).2, (stick_body_not_tilt K buf a hs).2]
      exact ⟨rfl, rfl⟩

/-! ## The state after a call that passed the size check -/

theorem interrupt_transfer_machine (K : PadConsts) (env : InputEnv) (idx n ep : Nat)
    (m : Machine) (hn : 27 ≤ n) :
    (interrupt_transfer K env idx n ep m).machine =
      { prepared K env n m with buf := overlay K env idx (rest_defaults (memset m.buf 0 n)) } := by
  cases hg : env.is_input_allowed with
  | false =>
    rw [interrupt_transfer_gate K env idx n ep m hn hg]
    simp [overlay, hg, prepared]
  | true =>
    by_cases hp : env.pads.length ≤ idx
    · rw [interrupt_transfer_no_pad K env idx n ep m hn hg hp]
      simp [overlay, hg, prepared, List.getElem?_eq_none hp]
    · have hp2 : idx < env.pads.length := by omega
      have h1 : env.pads[idx]? = some env.pads[idx] := List.getElem?_eq_getElem hp2
      by_cases hc : env.players.length ≤ idx
      · rw [interrupt_transfer_no_cfg K env idx n ep m hn hg hp2 hc]
        simp [overlay, hg, prepared, List.getElem?_eq_none hc]
      · have hc2 : idx < env.players.length := by omega
        have h2 : env.players[idx]? = some env.players[idx] := List.getElem?_eq_getElem hc2
        by_cases hconn : env.pads[idx].m_port_status &&& K.CELL_PAD_STATUS_CONNECTED = 0
        · rw [interrupt_transfer_unplugged_eq K env idx n ep m _ _ hn hg h1 h2 hconn]
          simp [overlay, hg, prepared, h1, h2, hconn]
        · rw [interrupt_transfer_live K env idx n ep m _ _ hn hg h1 h2 hconn]
          simp [overlay, hg, prepared, h1, h2, hconn]

/-- Either the call leaves the rest state alone, or a connected pad is bound to the slot
and both loops run on it. -/
theorem overlay_cases (K : PadConsts) (env : InputEnv) (idx : Nat) :
    (∀ buf, overlay K env idx buf = buf) ∨
    ∃ pad cfg, env.is_input_allowed = true ∧ env.pads[idx]? = some pad ∧
      env.players[idx]? = some cfg ∧ pad.m_port_status &&& K.CELL_PAD_STATUS_CONNECTED ≠ 0 ∧
      ∀ buf, overlay K env idx buf =
        pad.m_sticks.foldl (stick_body K) (apply_btns (pressed_btns cfg pad.m_buttons) buf) := by
  cases hg : env.is_input_allowed with
  | false => left; intro buf; simp [overlay, hg]
  | true =>
    cases hp : env.pads[idx]? with
    | none => left; intro buf; simp [overlay, hg, hp]
    | some pad =>
      cases hc : env.players[idx]? with
      | none => left; intro buf; simp [overlay, hg, hp, hc]
      | some cfg =>
        by_cases hconn : pad.m_port_status &&& K.CELL_PAD_STATUS_CONNECTED = 0
        · left; intro buf; simp [overlay, hg, hp, hc, hconn]
        · right
          refine ⟨pad, cfg, rfl, rfl, rfl, hconn, ?_⟩
          intro buf
          simp [overlay, hg, hp, hc, hconn, button_loop_eq]

theorem overlay_live (K : PadConsts) (env : InputEnv) (idx : Nat) (pad : Pad) (cfg : cfg_ghltar)
    (hallow : env.is_input_allowed = true)
    (hpad : env.pads[idx]? = some pad) (hcfg : env.players[idx]? = some cfg)
    (hconn : pad.m_port_status &&& K.CELL_PAD_STATUS_CONNECTED ≠ 0) (buf : Nat → Nat) :
    overlay K env idx buf =
      pad.m_sticks.foldl (stick_body K) (apply_btns (pressed_btns cfg pad.m_buttons) buf) := by
  simp [overlay, hallow, hpad, hcfg, hconn, button_loop_eq]

theorem overlay_frame (K : PadConsts) (env : InputEnv) (idx : Nat) (buf : Nat → Nat) (i : Nat)
    (h0 : i ≠ 0) (h1 : i ≠ 1) (h2 : i ≠ 2) (h4 : i ≠ 4) (h5 : i ≠ 5) (h6 : i ≠ 6)
    (h19 : i ≠ 19) : overlay K env idx buf i = buf i := by
  rcases overlay_cases K env idx with h | ⟨pad, cfg, -, -, -, -, h⟩
  · rw [h]
  · rw [h, stick_loop_frame K _ _ i h5 h6 h19, apply_btns_frame _ _ i h0 h1 h2 h4]

theorem overlay_congr (K : PadConsts) (env : InputEnv) (idx : Nat) (buf buf2 : Nat → Nat)
    (n : Nat) (hn : 27 ≤ n) (h : ∀ i, i < n → buf i = buf2 i) :
    ∀ i, i < n → overlay K env idx buf i = overlay K env idx buf2 i := by
  intro i hi
  rcases overlay_cases K env idx with h1 | ⟨pad, cfg, -, -, -, -, h1⟩
  · rw [h1, h1]; exact h i hi
  · rw [h1, h1]
    exact stick_loop_congr K _ _ _ (fun j => j < n) (show 5 < n by omega)
      (apply_btns_congr _ _ _ n hn h) i hi

/-- The buffer after a live call, in terms of the two loops. -/
theorem interrupt_transfer_live_buf (K : PadConsts) (env : InputEnv) (idx n ep : Nat)
    (m : Machine) (pad : Pad) (cfg : cfg_ghltar)
    (hn : 27 ≤ n) (hallow : env.is_input_allowed = true)
    (hpad : env.pads[idx]? = some pad) (hcfg : env.players[idx]? = some cfg)
    (hconn : pad.m_port_status &&& K.CELL_PAD_STATUS_CONNECTED ≠ 0) :
    (interrupt_transfer K env idx n ep m).machine.buf =
      pad.m_sticks.foldl (stick_body K)
        (apply_btns (pressed_btns cfg pad.m_buttons) (rest_defaults (memset m.buf 0 n))) := by
  rw [interrupt_transfer_live K env idx n ep m pad cfg hn hallow hpad hcfg hconn, button_loop_eq]

/-! ## Addition against bitwise OR -/

theorem fret_or_step : ∀ a, a < 64 → ∀ b : ghltar_btn, a &&& fret_bit b = 0 →
    (a ||| fret_bit b = a + fret_bit b ∧ a + fret_bit b < 64) := by
  decide

theorem fret_or_keep : ∀ a, a < 64 → ∀ b c : ghltar_btn, b ≠ c → a &&& fret_bit b = 0 →
    a &&& fret_bit c = 0 → (a + fret_bit b) &&& fret_bit c = 0 := by
  decide

theorem menu_or_step : ∀ a, a < 8 → ∀ b : ghltar_btn, a &&& menu_bit b = 0 →
    (a ||| menu_bit b = a + menu_bit b ∧ a + menu_bit b < 8) := by
  decide

theorem menu_or_keep : ∀ a, a < 8 → ∀ b c : ghltar_btn, b ≠ c → a &&& menu_bit b = 0 →
    a &&& menu_bit c = 0 → (a + menu_bit b) &&& menu_bit c = 0 := by
  decide

theorem bits_of_not_accumulated (btn : ghltar_btn) (h : is_accumulated btn = false) :
    fret_bit btn = 0 ∧ menu_bit btn = 0 := by
  cases btn <;> simp [is_accumulated, is_fret, is_menu] at h <;> exact ⟨rfl, rfl⟩

theorem button_case_or_eq (btn : ghltar_btn) (buf : Nat → Nat) (h0 : buf 0 < 64)
    (h1 : buf 1 < 8) (hf : buf 0 &&& fret_bit btn = 0) (hm : buf 1 &&& menu_bit btn = 0) :
    button_case_or btn buf = button_case btn buf := by
  have hF := (fret_or_step _ h0 btn hf).1
  have hM := (menu_or_step _ h1 btn hm).1
  cases btn <;> simp only [fret_bit, menu_bit] at hF hM <;>
    simp only [button_case_or, button_case, hF, hM]

theorem apply_btns_or_cons (btn : ghltar_btn) (btns : List ghltar_btn) (buf : Nat → Nat) :
    apply_btns_or (btn :: btns) buf = apply_btns_or btns (button_case_or btn buf) := rfl

/-- As long as no accumulated button occurs twice, every bit that is added is still
clear, so OR and addition agree along the whole list. -/
theorem apply_btns_or_eq (btns : List ghltar_btn) (buf : Nat → Nat)
    (h0 : buf 0 < 64) (h1 : buf 1 < 8)
    (hclear : ∀ b, b ∈ btns → buf 0 &&& fret_bit b = 0 ∧ buf 1 &&& menu_bit b = 0)
    (hnodup : (btns.filter is_accumulated).Nodup) :
    apply_btns_or btns buf = apply_btns btns buf := by
  induction btns generalizing buf with
  | nil => rfl
  | cons btn rest ih =>
    have hb := hclear btn (List.mem_cons_self _ _)
    rw [apply_btns_or_cons, apply_btns_cons, button_case_or_eq btn buf h0 h1 hb.1 hb.2]
    have hF := (fret_or_step _ h0 btn hb.1).2
    have hM := (menu_or_step _ h1 btn hb.2).2
    have e0 : button_case btn buf 0 = buf 0 + fret_bit btn := by
      rw [button_case_byte0 btn buf (by omega)]
      exact Nat.mod_eq_of_lt (by omega)
    have e1 : button_case btn buf 1 = buf 1 + menu_bit btn := by
      rw [button_case_byte1 btn buf (by omega)]
      exact Nat.mod_eq_of_lt (by omega)
    have hrest : (rest.filter is_accumulated).Nodup := by
      cases ha : is_accumulated btn with
      | true =>
        rw [List.filter_cons, if_pos ha] at hnodup
        exact (List.nodup_cons.mp hnodup).2
      | false =>
        rw [List.filter_cons, if_neg (by simp [ha])] at hnodup
        exact hnodup
    refine ih _ (by rw [e0]; exact hF) (by rw [e1]; exact hM) ?_ hrest
    intro c hc
    have hcc := hclear c (List.mem_cons_of_mem _ hc)
    rw [e0, e1]
    by_cases hcb : btn = c
    · subst hcb
      cases ha : is_accumulated btn with
      | true =>
        exfalso
        rw [List.filter_cons, if_pos ha] at hnodup
        exact (List.nodup_cons.mp hnodup).1 (List.mem_filter.mpr ⟨hc, ha⟩)
      | false =>
        have hz := bits_of_not_accumulated btn ha
        rw [hz.1, hz.2]
        exact ⟨Nat.and_zero _, Nat.and_zero _⟩
    · exact ⟨fret_or_keep _ h0 btn c hcb hb.1 hcc.1, menu_or_keep _ h1 btn c hcb hb.2 hcc.2⟩

theorem button_loop_or_eq (cfg : cfg_ghltar) (buttons : List Button) (buf : Nat → Nat) :
    buttons.foldl (button_body_or cfg) buf = apply_btns_or (pressed_btns cfg buttons) buf := by
  induction buttons generalizing buf with
  | nil => rfl
  | cons b rest ih =>
    rw [List.foldl_cons, ih]
    cases hp : b.m_pressed with
    | false => simp [button_body_or, pressed_btns, hp]
    | true =>
      cases hf : cfg.find_button b.m_offset b.m_outKeyCode with
      | none => simp [button_body_or, pressed_btns, hp, hf]
      | some btn => simp [button_body_or, pressed_btns, hp, hf, apply_btns_or]

theorem at32_ok_getElem {α : Type} (xs : List α) (i : Nat) (x : α)
    (h : at32 xs i = Except.ok x) : xs[i]? = some x := by
  unfold at32 at h
  cases hx : xs[i]? with
  | none => rw [hx] at h; cases h
  | some y => rw [hx] at h; cases h; rfl

theorem button_loops_agree (cfg : cfg_ghltar) (buttons : List Button) (old : Nat → Nat)
    (n : Nat) (hnodup : ((pressed_btns cfg buttons).filter is_accumulated).Nodup) :
    buttons.foldl (button_body_or cfg) (rest_defaults (memset old 0 n))
      = buttons.foldl (button_body cfg) (rest_defaults (memset old 0 n)) := by
  have h0 : rest_defaults (memset old 0 n) 0 = 0 := rfl
  have h1 : rest_defaults (memset old 0 n) 1 = 0 := rfl
  rw [button_loop_or_eq, button_loop_eq]
  refine apply_btns_or_eq _ _ (by rw [h0]; decide) (by rw [h1]; decide) ?_ hnodup
  intro b _
  rw [h0, h1]
  exact ⟨Nat.zero_and _, Nat.zero_and _⟩

/-! ## Strum, slots and byte sums of a live call -/

theorem apply_btns_concat (btns : List ghltar_btn) (btn : ghltar_btn) (buf : Nat → Nat) :
    apply_btns (btns ++ [btn]) buf = button_case btn (apply_btns btns buf) := by
  simp [apply_btns, List.foldl_append]

/-- Byte 4 after the button switch is decided by the last strum direction in the list. -/
theorem apply_btns_byte4 (btns : List ghltar_btn) (buf : Nat → Nat) :
    apply_btns btns buf 4 = strum_value (buf 4) (btns.filter is_strum).getLast? := by
  induction btns using List.reverseRecOn with
  | nil => rfl
  | append_singleton rest btn ih =>
    rw [apply_btns_concat, List.filter_append]
    cases hs : is_strum btn with
    | true =>
      have hfil : [btn].filter is_strum = [btn] := by simp [hs]
      rw [hfil, List.getLast?_concat]
      cases btn <;> simp [is_strum] at hs <;> rfl
    | false =>
      have hfil : [btn].filter is_strum = [] := by simp [hs]
      rw [hfil, List.append_nil, ← ih]
      cases btn <;> simp [is_strum] at hs <;> rfl

theorem with_pad_getElem (env : InputEnv) (idx : Nat) (pad pad2 : Pad)
    (hpad : env.pads[idx]? = some pad) : (with_pad env idx pad2).pads[idx]? = some pad2 := by
  have hlt : idx < env.pads.length := by
    rcases List.getElem?_eq_some.mp hpad with ⟨h, -⟩
    exact h
  simp [with_pad, List.getElem?_set_self hlt]

theorem live_byte0 (K : PadConsts) (env : InputEnv) (idx n ep : Nat)
    (m : Machine) (pad : Pad) (cfg : cfg_ghltar)
    (hn : 27 ≤ n) (hallow : env.is_input_allowed = true)
    (hpad : env.pads[idx]? = some pad) (hcfg : env.players[idx]? = some cfg)
    (hconn : pad.m_port_status &&& K.CELL_PAD_STATUS_CONNECTED ≠ 0) :
    (interrupt_transfer K env idx n ep m).machine.buf 0
      = ((pressed_btns cfg pad.m_buttons).map fret_bit).sum % 256 := by
  have h0 : rest_defaults (memset m.buf 0 n) 0 = 0 := rfl
  rw [interrupt_transfer_live_buf K env idx n ep m pad cfg hn hallow hpad hcfg hconn,
    stick_loop_frame K _ _ 0 (by decide) (by decide) (by decide),
    apply_btns_byte0 _ _ (by rw [h0]; decide), h0, Nat.zero_add]

theorem live_byte1 (K : PadConsts) (env : InputEnv) (idx n ep : Nat)
    (m : Machine) (pad : Pad) (cfg : cfg_ghltar)
    (hn : 27 ≤ n) (hallow : env.is_input_allowed = true)
    (hpad : env.pads[idx]? = some pad) (hcfg : env.players[idx]? = some cfg)
    (hconn : pad.m_port_status &&& K.CELL_PAD_STATUS_CONNECTED ≠ 0) :
    (interrupt_transfer K env idx n ep m).machine.buf 1
      = ((pressed_btns cfg pad.m_buttons).map menu_bit).sum % 256 := by
  have h1 : rest_defaults (memset m.buf 0 n) 1 = 0 := rfl
  rw [interrupt_transfer_live_buf K env idx n ep m pad cfg hn hallow hpad hcfg hconn,
    stick_loop_frame K _ _ 1 (by decide) (by decide) (by decide),
    apply_btns_byte1 _ _ (by rw [h1]; decide), h1, Nat.zero_add]

/-! ## Irrelevant inputs, rest and value ranges -/

theorem apply_btns_relevant (cfg : cfg_ghltar) (buttons : List Button) (buf : Nat → Nat) :
    apply_btns (pressed_btns cfg (buttons.filter (relevant_button cfg))) buf
      = apply_btns (pressed_btns cfg buttons) buf := by
  induction buttons generalizing buf with
  | nil => rfl
  | cons b rest ih =>
    cases hp : b.m_pressed with
    | false =>
      have hr : relevant_button cfg b = false := by simp [relevant_button, hp]
      have e1 : pressed_btns cfg (b :: rest) = pressed_btns cfg rest := by
        simp [pressed_btns, hp]
      rw [List.filter_cons, if_neg (by simp [hr]), e1, ih]
    | true =>
      cases hf : cfg.find_button b.m_offset b.m_outKeyCode with
      | none =>
        have hr : relevant_button cfg b = false := by simp [relevant_button, hf]
        have e1 : pressed_btns cfg (b :: rest) = pressed_btns cfg rest := by
          simp [pressed_btns, hp, hf]
        rw [List.filter_cons, if_neg (by simp [hr]), e1, ih]
      | some btn =>
        have e1 : ∀ tail, pressed_btns cfg (b :: tail) = btn :: pressed_btns cfg tail := by
          intro tail
          simp [pressed_btns, hp, hf]
        by_cases hcount : btn = ghltar_btn.count
        · have hr : relevant_button cfg b = false := by simp [relevant_button, hf, hcount]
          rw [List.filter_cons, if_neg (by simp [hr]), e1 rest, apply_btns_cons, hcount, ih]
          rfl
        · have hr : relevant_button cfg b = true := by simp [relevant_button, hp, hf, hcount]
          rw [List.filter_cons, if_pos hr, e1, e1, apply_btns_cons, apply_btns_cons, ih]

theorem stick_body_irrelevant (K : PadConsts) (buf : Nat → Nat) (s : AnalogStick)
    (h : relevant_stick K s = false) : stick_body K buf s = buf := by
  have hx : s.m_offset ≠ K.CELL_PAD_BTN_OFFSET_ANALOG_RIGHT_X := by
    intro e; simp [relevant_stick, e] at h
  have hy : s.m_offset ≠ K.CELL_PAD_BTN_OFFSET_ANALOG_RIGHT_Y := by
    intro e; simp [relevant_stick, e] at h
  funext j
  rw [stick_body_apply, if_neg hy, if_neg hx]

theorem stick_loop_relevant (K : PadConsts) (sticks : List AnalogStick) (buf : Nat → Nat) :
    (sticks.filter (relevant_stick K)).foldl (stick_body K) buf
      = sticks.foldl (stick_body K) buf := by
  induction sticks generalizing buf with
  | nil => rfl
  | cons s rest ih =>
    cases hr : relevant_stick K s with
    | true => rw [List.filter_cons, if_pos hr, List.foldl_cons, List.foldl_cons, ih]
    | false =>
      rw [List.filter_cons, if_neg (by simp [hr]), List.foldl_cons,
        stick_body_irrelevant K buf s hr, ih]

theorem stick_body_neutral (K : PadConsts) (buf : Nat → Nat) (s : AnalogStick)
    (h5 : buf 5 = 0x80) (h6 : buf 6 = 0x80) (h19 : buf 19 = 0x80)
    (hs : s.m_offset = K.CELL_PAD_BTN_OFFSET_ANALOG_RIGHT_X ∨
      s.m_offset = K.CELL_PAD_BTN_OFFSET_ANALOG_RIGHT_Y → s.m_value = 0x80) :
    stick_body K buf s = buf := by
  funext j
  rw [stick_body_apply]
  by_cases hy : s.m_offset = K.CELL_PAD_BTN_OFFSET_ANALOG_RIGHT_Y
  · rw [if_pos hy, hs (Or.inr hy)]
    by_cases hj : j = 6
    · rw [if_pos hj, hj, h6]
    · rw [if_neg hj]
  · rw [if_neg hy]
    by_cases hx : s.m_offset = K.CELL_PAD_BTN_OFFSET_ANALOG_RIGHT_X
    · rw [if_pos hx, hs (Or.inl hx)]
      by_cases hj5 : j = 5
      · rw [if_pos hj5, hj5, h5]; rfl
      · rw [if_neg hj5]
        by_cases hj19 : j = 19
        · rw [if_pos hj19, hj19, h19]
        · rw [if_neg hj19]
    · rw [if_neg hx]

theorem stick_loop_neutral (K : PadConsts) (sticks : List AnalogStick) (buf : Nat → Nat)
    (h5 : buf 5 = 0x80) (h6 : buf 6 = 0x80) (h19 : buf 19 = 0x80)
    (hs : ∀ s, s ∈ sticks → s.m_offset = K.CELL_PAD_BTN_OFFSET_ANALOG_RIGHT_X ∨
      s.m_offset = K.CELL_PAD_BTN_OFFSET_ANALOG_RIGHT_Y → s.m_value = 0x80) :
    sticks.foldl (stick_body K) buf = buf := by
  induction sticks with
  | nil => rfl
  | cons s rest ih =>
    rw [List.foldl_cons, stick_body_neutral K buf s h5 h6 h19 (hs s (List.mem_cons_self _ _))]
    exact ih (fun t ht => hs t (List.mem_cons_of_mem _ ht))

theorem apply_btns_byte2_cases (btns : List ghltar_btn) (buf : Nat → Nat) :
    apply_btns btns buf 2 = buf 2 ∨ apply_btns btns buf 2 = 0x02 ∨
      apply_btns btns buf 2 = 0x06 := by
  induction btns using List.reverseRecOn with
  | nil => exact Or.inl rfl
  | append_singleton rest btn ih =>
    rw [apply_btns_concat]
    cases btn <;> first
      | exact Or.inr (Or.inl rfl)
      | exact Or.inr (Or.inr rfl)
      | exact ih

theorem stick_loop_byte5_cases (K : PadConsts) (sticks : List AnalogStick) (buf : Nat → Nat) :
    sticks.foldl (stick_body K) buf 5 = buf 5 ∨ sticks.foldl (stick_body K) buf 5 = 0x00 ∨
      sticks.foldl (stick_body K) buf 5 = 0xFF := by
  induction sticks using List.reverseRecOn with
  | nil => exact Or.inl rfl
  | append_singleton rest s ih =>
    rw [List.foldl_append, List.foldl_cons, List.foldl_nil]
    by_cases hx : s.m_offset = K.CELL_PAD_BTN_OFFSET_ANALOG_RIGHT_X
    · rw [(stick_body_tilt K _ s hx).2]
      split_ifs
      · exact Or.inr (Or.inr rfl)
      · exact Or.inr (Or.inl rfl)
      · exact ih
    · rw [(stick_body_not_tilt K _ s hx).2]
      exact ih

theorem sum_menu_bit_le (btns : List ghltar_btn) (h : btns.Nodup) :
    (btns.map menu_bit).sum ≤ 0x07 := by
  rw [← List.sum_toFinset menu_bit h]
  calc btns.toFinset.sum menu_bit
      ≤ (Finset.univ : Finset ghltar_btn).sum menu_bit :=
        Finset.sum_le_sum_of_subset (Finset.subset_univ _)
    _ = 0x07 := by decide

theorem strum_value_cases (neutral : Nat) (last : Option ghltar_btn) :
    strum_value neutral last = neutral ∨ strum_value neutral last = 0x00 ∨
      strum_value neutral last = 0xFF := by
  unfold strum_value
  split
  · exact Or.inr (Or.inr rfl)
  · exact Or.inr (Or.inl rfl)
  · exact Or.inl rfl

/-! ## Rest-state paths -/

/-- C1: with a buffer of n >= 27 bytes and global input disallowed, the handler returns
normally and every one of the n bytes equals the rest-state report (byte 2 = 0x0F, bytes
3, 4, 5, 6 and 19 = 0x80, byte 22 = 0x01, bytes 24 and 26 = 0x02, all others 0x00),
whatever the initial buffer, the slot index, the pads and the mapping are. -/
theorem interrupt_transfer_input_disallowed (K : PadConsts) (env : InputEnv)
    (idx n ep : Nat) (m : Machine) (hn : 27 ≤ n) (hgate : env.is_input_allowed = false) :
    (interrupt_transfer K env idx n ep m).result = Except.ok () ∧
    ∀ i, i < n → (interrupt_transfer K env idx n ep m).machine.buf i = rest_report i := by
  rw [interrupt_transfer_gate K env idx n ep m hn hgate]
  exact ⟨rfl, fun i hi => rest_defaults_memset m.buf n i hi⟩

theorem interrupt_transfer_input_disallowed_witness :
    27 ≤ 27 ∧ sampleEnvGated.is_input_allowed = false ∧
    (interrupt_transfer sampleConsts sampleEnvGated 0 27 1 sampleMachine).result = Except.ok () ∧
    ∀ i, i < 27 →
      (interrupt_transfer sampleConsts sampleEnvGated 0 27 1 sampleMachine).machine.buf i
        = rest_report i :=
  ⟨by decide, rfl,
    interrupt_transfer_input_disallowed sampleConsts sampleEnvGated 0 27 1 sampleMachine
      (by decide) rfl⟩

/-- C2: with input allowed, a slot index valid in the pad list and in the configuration
list, and a pad whose port status lacks the connected flag, the handler returns normally
and every one of the n >= 27 bytes equals the rest-state report, whatever buttons are
pressed and whatever the stick values are. -/
theorem interrupt_transfer_disconnected (K : PadConsts) (env : InputEnv)
    (idx n ep : Nat) (m : Machine) (pad : Pad) (cfg : cfg_ghltar)
    (hn : 27 ≤ n) (hallow : env.is_input_allowed = true)
    (hpad : env.pads[idx]? = some pad) (hcfg : env.players[idx]? = some cfg)
    (hdisc : pad.m_port_status &&& K.CELL_PAD_STATUS_CONNECTED = 0) :
    (interrupt_transfer K env idx n ep m).result = Except.ok () ∧
    ∀ i, i < n → (interrupt_transfer K env idx n ep m).machine.buf i = rest_report i := by
  rw [interrupt_transfer_unplugged_eq K env idx n ep m pad cfg hn hallow hpad hcfg hdisc]
  exact ⟨rfl, fun i hi => rest_defaults_memset m.buf n i hi⟩

theorem interrupt_transfer_disconnected_witness :
    27 ≤ 27 ∧ sampleEnvUnplugged.is_input_allowed = true ∧
    sampleEnvUnplugged.pads[0]? = some sampleUnpluggedPad ∧
    sampleEnvUnplugged.players[0]? = some sampleCfg ∧
    sampleUnpluggedPad.m_port_status &&& sampleConsts.CELL_PAD_STATUS_CONNECTED = 0 ∧
    (interrupt_transfer sampleConsts sampleEnvUnplugged 0 27 1 sampleMachine).result
      = Except.ok () ∧
    ∀ i, i < 27 →
      (interrupt_transfer sampleConsts sampleEnvUnplugged 0 27 1 sampleMachine).machine.buf i
        = rest_report i :=
  ⟨by decide, rfl, rfl, rfl, by decide,
    interrupt_transfer_disconnected sampleConsts sampleEnvUnplugged 0 27 1 sampleMachine
      sampleUnpluggedPad sampleCfg (by decide) rfl rfl rfl (by decide)⟩

/-! ## Faults -/

/-- C3, the claim as stated fails: with a 27-byte buffer, input allowed and slot index 7
on a list of seven pads, the handler faults in the bounds-checked lookup although the size
check passed, and by then byte 0 of the buffer and the transfer record have been
overwritten. -/
theorem interrupt_transfer_fault_iff_small_counterexample :
    ¬ ((interrupt_transfer sampleConsts sampleEnvSevenPads 7 27 1 sampleMachine).result
        ≠ Except.ok () ↔ 27 < 27) ∧
    (interrupt_transfer sampleConsts sampleEnvSevenPads 7 27 1 sampleMachine).result
      = Except.error Fault.range_error ∧
    (interrupt_transfer sampleConsts sampleEnvSevenPads 7 27 1 sampleMachine).machine.buf 0
      ≠ sampleMachine.buf 0 ∧
    (interrupt_transfer sampleConsts sampleEnvSevenPads 7 27 1 sampleMachine).machine.transfer
      ≠ sampleMachine.transfer :=
  ⟨fun h => absurd (h.mp (fun e => by cases e)) (by decide), rfl, by decide, by decide⟩

/-- C3, amended: the size check faults if and only if buf_size < 27, and then the state
(buffer, transfer record, log) is exactly the state the call started from; the only other
fault is the bounds-checked lookup, raised if and only if buf_size >= 27, input is allowed
and the slot index is out of range for the pad list or the configuration list; that fault
is raised after the transfer record and the rest-state report have been written: the
record then has fake = true, expected_count = buf_size, expected_result = HC_CC_NOERR and
expected_time = the clock value plus 1000 in 64-bit arithmetic, every one of the buf_size
bytes equals the rest-state report, and the log is untouched; so with a slot index valid
in both lists the handler faults if and only if buf_size < 27. -/
theorem interrupt_transfer_fault_cases (K : PadConsts) (env : InputEnv)
    (idx n ep : Nat) (m : Machine) :
    ((interrupt_transfer K env idx n ep m).result = Except.error Fault.ensure_failed ↔ n < 27) ∧
    (n < 27 → (interrupt_transfer K env idx n ep m).machine = m) ∧
    ((interrupt_transfer K env idx n ep m).result = Except.error Fault.range_error ↔
      27 ≤ n ∧ env.is_input_allowed = true ∧
        (env.pads.length ≤ idx ∨ env.players.length ≤ idx)) ∧
    (idx < env.pads.length → idx < env.players.length →
      ((interrupt_transfer K env idx n ep m).result ≠ Except.ok () ↔ n < 27)) ∧
    ((interrupt_transfer K env idx n ep m).result = Except.error Fault.range_error →
      (interrupt_transfer K env idx n ep m).machine.transfer
        = { m.transfer with
            fake := true
            expected_count := n
            expected_result := K.HC_CC_NOERR
            expected_time := (env.get_timestamp + 1000) % 2 ^ 64 } ∧
      (∀ i, i < n → (interrupt_transfer K env idx n ep m).machine.buf i = rest_report i) ∧
      (∀ i, n ≤ i → (interrupt_transfer K env idx n ep m).machine.buf i = m.buf i) ∧
      (interrupt_transfer K env idx n ep m).machine.log = m.log) := by
  have hwritten : ∀ out : Outcome, out.machine = prepared K env n m →
      27 ≤ n →
      out.machine.transfer
        = { m.transfer with
            fake := true
            expected_count := n
            expected_result := K.HC_CC_NOERR
            expected_time := (env.get_timestamp + 1000) % 2 ^ 64 } ∧
      (∀ i, i < n → out.machine.buf i = rest_report i) ∧
      (∀ i, n ≤ i → out.machine.buf i = m.buf i) ∧
      out.machine.log = m.log := by
    intro out hout hn27
    rw [hout]
    refine ⟨rfl, fun i hi => rest_defaults_memset m.buf n i hi, fun i hi => ?_, rfl⟩
    show rest_defaults (memset m.buf 0 n) i = m.buf i
    exact (rest_defaults_high _ i (Nat.le_trans hn27 hi)).trans (memset_ge m.buf 0 n i hi)
  by_cases hn : n < 27
  · rw [interrupt_transfer_small K env idx n ep m hn]
    refine ⟨by simp [hn], fun _ => rfl, ?_, fun _ _ => by simp [hn], fun h => ?_⟩
    · constructor
      · intro h; cases h
      · rintro ⟨h, -⟩; omega
    · cases h
  · have hn27 : 27 ≤ n := by omega
    cases hg : env.is_input_allowed with
    | false =>
      rw [interrupt_transfer_gate K env idx n ep m hn27 hg]
      refine ⟨by simp [hn], fun h => absurd h hn, by simp, fun _ _ => by simp [hn],
        fun h => ?_⟩
      cases h
    | true =>
      by_cases hp : env.pads.length ≤ idx
      · rw [interrupt_transfer_no_pad K env idx n ep m hn27 hg hp]
        refine ⟨by simp [hn], fun h => absurd h hn, by simp [hn27, hp], fun h => ?_,
          fun _ => hwritten _ rfl hn27⟩
        omega
      · have hp2 : idx < env.pads.length := by omega
        by_cases hc : env.players.length ≤ idx
        · rw [interrupt_transfer_no_cfg K env idx n ep m hn27 hg hp2 hc]
          refine ⟨by simp [hn], fun h => absurd h hn, by simp [hn27, hc], fun _ h => ?_,
            fun _ => hwritten _ rfl hn27⟩
          omega
        · have hc2 : idx < env.players.length := by omega
          have h1 : env.pads[idx]? = some env.pads[idx] := List.getElem?_eq_getElem hp2
          have h2 : env.players[idx]? = some env.players[idx] := List.getElem?_eq_getElem hc2
          by_cases hconn : env.pads[idx].m_port_status &&& K.CELL_PAD_STATUS_CONNECTED = 0
          · rw [interrupt_transfer_unplugged_eq K env idx n ep m _ _ hn27 hg h1 h2 hconn]
            refine ⟨by simp [hn], fun h => absurd h hn, by simp [hp, hc],
              fun _ _ => by simp [hn], fun h => ?_⟩
            cases h
          · rw [interrupt_transfer_live K env idx n ep m _ _ hn27 hg h1 h2 hconn]
            refine ⟨by simp [hn], fun h => absurd h hn, by simp [hp, hc],
              fun _ _ => by simp [hn], fun h => ?_⟩
            cases h

theorem interrupt_transfer_fault_cases_witness :
    26 < 27 ∧ 0 < sampleEnv.pads.length ∧ 0 < sampleEnv.players.length ∧
    (interrupt_transfer sampleConsts sampleEnv 0 26 1 sampleMachine).machine = sampleMachine ∧
    ((interrupt_transfer sampleConsts sampleEnv 0 26 1 sampleMachine).result ≠ Except.ok ()
      ↔ 26 < 27) ∧
    (interrupt_transfer sampleConsts sampleEnvSevenPads 7 30 1 sampleMachine).result
      = Except.error Fault.range_error ∧
    (interrupt_transfer sampleConsts sampleEnvSevenPads 7 30 1 sampleMachine).machine.transfer
      = { sampleMachine.transfer with
          fake := true
          expected_count := 30
          expected_result := sampleConsts.HC_CC_NOERR
          expected_time := (sampleEnvSevenPads.get_timestamp + 1000) % 2 ^ 64 } ∧
    (∀ i, i < 30 →
      (interrupt_transfer sampleConsts sampleEnvSevenPads 7 30 1 sampleMachine).machine.buf i
        = rest_report i) ∧
    (∀ i, 30 ≤ i →
      (interrupt_transfer sampleConsts sampleEnvSevenPads 7 30 1 sampleMachine).machine.buf i
        = sampleMachine.buf i) ∧
    (interrupt_transfer sampleConsts sampleEnvSevenPads 7 30 1 sampleMachine).machine.log
      = sampleMachine.log :=
  ⟨by decide, by decide, by decide,
    (interrupt_transfer_fault_cases sampleConsts sampleEnv 0 26 1 sampleMachine).2.1 (by decide),
    (interrupt_transfer_fault_cases sampleConsts sampleEnv 0 26 1 sampleMachine).2.2.2.1
      (by decide) (by decide),
    rfl,
    (interrupt_transfer_fault_cases sampleConsts sampleEnvSevenPads 7 30 1 sampleMachine).2.2.2.2
      rfl⟩

/-! ## Live input -/

/-- C4: for a connected pad with input allowed, releasing the buttons mapped to frets
changes no byte other than byte 0; when the pressed, mapped buttons are exactly one B1,
one B2 and one W1 button, byte 0 is 0x07; and whenever every pressed fret is pressed by
exactly one button, byte 0 is the sum of the bits of the pressed frets (W1 0x01, B1 0x02,
B2 0x04, B3 0x08, W2 0x10, W3 0x20). -/
theorem interrupt_transfer_fret_accumulation (K : PadConsts) (env : InputEnv)
    (idx n ep : Nat) (m : Machine) (pad : Pad) (cfg : cfg_ghltar)
    (hn : 27 ≤ n) (hallow : env.is_input_allowed = true)
    (hpad : env.pads[idx]? = some pad) (hcfg : env.players[idx]? = some cfg)
    (hconn : pad.m_port_status &&& K.CELL_PAD_STATUS_CONNECTED ≠ 0) :
    (∀ i, i ≠ 0 →
      (interrupt_transfer K env idx n ep m).machine.buf i
        = (interrupt_transfer K (with_pad env idx (release_frets cfg pad)) idx n ep m).machine.buf
            i) ∧
    ((pressed_btns cfg pad.m_buttons).Perm [ghltar_btn.b1, ghltar_btn.b2, ghltar_btn.w1] →
      (interrupt_transfer K env idx n ep m).machine.buf 0 = 0x07) ∧
    (((pressed_btns cfg pad.m_buttons).filter is_fret).Nodup →
      (interrupt_transfer K env idx n ep m).machine.buf 0
        = (((pressed_btns cfg pad.m_buttons).filter is_fret).map fret_bit).sum) := by
  have hlt : idx < env.pads.length := by
    rcases List.getElem?_eq_some.mp hpad with ⟨h, -⟩
    exact h
  have hpad2 : (with_pad env idx (release_frets cfg pad)).pads[idx]?
      = some (release_frets cfg pad) := by
    simp [with_pad, List.getElem?_set_self hlt]
  have hout := interrupt_transfer_live_buf K env idx n ep m pad cfg hn hallow hpad hcfg hconn
  have hout2 := interrupt_transfer_live_buf K (with_pad env idx (release_frets cfg pad)) idx n ep
    m (release_frets cfg pad) cfg hn hallow hpad2 hcfg hconn
  have hbyte0 : (interrupt_transfer K env idx n ep m).machine.buf 0
      = ((pressed_btns cfg pad.m_buttons).map fret_bit).sum % 256 := by
    have h0 : rest_defaults (memset m.buf 0 n) 0 = 0 := rfl
    rw [hout, stick_loop_frame K _ _ 0 (by decide) (by decide) (by decide),
      apply_btns_byte0 _ _ (by rw [h0]; decide), h0, Nat.zero_add]
  refine ⟨?_, ?_, ?_⟩
  · intro i hi
    rw [hout, hout2, pressed_btns_release_frets]
    exact stick_loop_congr K _ _ _ (fun j => j ≠ 0) (by decide)
      (apply_btns_drop_frets _ _ _ (fun _ _ => rfl)) i hi
  · intro hperm
    rw [hbyte0, List.Perm.sum_eq (List.Perm.map fret_bit hperm)]
    rfl
  · intro hnodup
    rw [hbyte0, ← sum_fret_bit_filter]
    exact Nat.mod_eq_of_lt (Nat.lt_of_le_of_lt (sum_fret_bit_le _ hnodup) (by decide))

theorem interrupt_transfer_fret_accumulation_witness :
    27 ≤ 27 ∧ sampleEnv.is_input_allowed = true ∧ sampleEnv.pads[0]? = some samplePad ∧
    sampleEnv.players[0]? = some sampleCfg ∧
    samplePad.m_port_status &&& sampleConsts.CELL_PAD_STATUS_CONNECTED ≠ 0 ∧
    (pressed_btns sampleCfg samplePad.m_buttons).Perm
      [ghltar_btn.b1, ghltar_btn.b2, ghltar_btn.w1] ∧
    ((pressed_btns sampleCfg samplePad.m_buttons).filter is_fret).Nodup ∧
    (interrupt_transfer sampleConsts sampleEnv 0 27 1 sampleMachine).machine.buf 0 = 0x07 ∧
    (interrupt_transfer sampleConsts sampleEnv 0 27 1 sampleMachine).machine.buf 0
      = (((pressed_btns sampleCfg samplePad.m_buttons).filter is_fret).map fret_bit).sum ∧
    (∀ i, i ≠ 0 →
      (interrupt_transfer sampleConsts sampleEnv 0 27 1 sampleMachine).machine.buf i
        = (interrupt_transfer sampleConsts (with_pad sampleEnv 0 (release_frets sampleCfg samplePad))
            0 27 1 sampleMachine).machine.buf i) :=
  ⟨by decide, rfl, rfl, rfl, by decide, by decide, by decide,
    (interrupt_transfer_fret_accumulation sampleConsts sampleEnv 0 27 1 sampleMachine samplePad
      sampleCfg (by decide) rfl rfl rfl (by decide)).2.1 (by decide),
    (interrupt_transfer_fret_accumulation sampleConsts sampleEnv 0 27 1 sampleMachine samplePad
      sampleCfg (by decide) rfl rfl rfl (by decide)).2.2 (by decide),
    (interrupt_transfer_fret_accumulation sampleConsts sampleEnv 0 27 1 sampleMachine samplePad
      sampleCfg (by decide) rfl rfl rfl (by decide)).1⟩

/-- C5: for a connected pad with input allowed whose stick list has exactly one
right-stick-X entry, with raw value v, byte 19 is v truncated to 8 bits and byte 5 is 0xFF
when byte 19 >= 0xF0, 0x00 when byte 19 <= 0x10, and 0x80 otherwise; so byte 19 = 0xFF
gives byte 5 = 0xFF, byte 19 = 0x00 gives byte 5 = 0x00 and byte 19 = 0x80 gives
byte 5 = 0x80. -/
theorem interrupt_transfer_tilt_saturation (K : PadConsts) (env : InputEnv)
    (idx n ep : Nat) (m : Machine) (pad : Pad) (cfg : cfg_ghltar) (s : AnalogStick)
    (hn : 27 ≤ n) (hallow : env.is_input_allowed = true)
    (hpad : env.pads[idx]? = some pad) (hcfg : env.players[idx]? = some cfg)
    (hconn : pad.m_port_status &&& K.CELL_PAD_STATUS_CONNECTED ≠ 0)
    (hone : right_x_sticks K pad.m_sticks = [s]) :
    (interrupt_transfer K env idx n ep m).machine.buf 19 = s.m_value % 256 ∧
    (interrupt_transfer K env idx n ep m).machine.buf 5 =
      (if (interrupt_transfer K env idx n ep m).machine.buf 19 ≥ 0xF0 then 0xFF
       else if (interrupt_transfer K env idx n ep m).machine.buf 19 ≤ 0x10 then 0x00
       else 0x80) ∧
    ((interrupt_transfer K env idx n ep m).machine.buf 19 = 0xFF →
      (interrupt_transfer K env idx n ep m).machine.buf 5 = 0xFF) ∧
    ((interrupt_transfer K env idx n ep m).machine.buf 19 = 0x00 →
      (interrupt_transfer K env idx n ep m).machine.buf 5 = 0x00) ∧
    ((interrupt_transfer K env idx n ep m).machine.buf 19 = 0x80 →
      (interrupt_transfer K env idx n ep m).machine.buf 5 = 0x80) := by
  have hout := interrupt_transfer_live_buf K env idx n ep m pad cfg hn hallow hpad hcfg hconn
  have h := stick_loop_one_tilt K pad.m_sticks
    (apply_btns (pressed_btns cfg pad.m_buttons) (rest_defaults (memset m.buf 0 n))) s hone
  have h5 : apply_btns (pressed_btns cfg pad.m_buttons) (rest_defaults (memset m.buf 0 n)) 5
      = 0x80 := by
    rw [apply_btns_frame _ _ 5 (by decide) (by decide) (by decide) (by decide)]
    rfl
  rw [h5] at h
  have h19 := h.1
  have hb5 := h.2
  rw [← hout] at h19 hb5
  rw [← h19] at hb5
  refine ⟨h19, hb5, ?_, ?_, ?_⟩
  · intro e; rw [hb5, e]; rfl
  · intro e; rw [hb5, e]; rfl
  · intro e; rw [hb5, e]; rfl

theorem interrupt_transfer_tilt_saturation_witness :
    27 ≤ 27 ∧ sampleEnv.is_input_allowed = true ∧ sampleEnv.pads[0]? = some samplePad ∧
    sampleEnv.players[0]? = some sampleCfg ∧
    samplePad.m_port_status &&& sampleConsts.CELL_PAD_STATUS_CONNECTED ≠ 0 ∧
    right_x_sticks sampleConsts samplePad.m_sticks = [{ m_offset := 4, m_value := 0xFF }] ∧
    (interrupt_transfer sampleConsts sampleEnv 0 27 1 sampleMachine).machine.buf 19 = 0xFF ∧
    (interrupt_transfer sampleConsts sampleEnv 0 27 1 sampleMachine).machine.buf 5 = 0xFF :=
  ⟨by decide, rfl, rfl, rfl, by decide, by decide,
    (interrupt_transfer_tilt_saturation sampleConsts sampleEnv 0 27 1 sampleMachine samplePad
      sampleCfg { m_offset := 4, m_value := 0xFF } (by decide) rfl rfl rfl (by decide)
      (by decide)).1,
    (interrupt_transfer_tilt_saturation sampleConsts sampleEnv 0 27 1 sampleMachine samplePad
      sampleCfg { m_offset := 4, m_value := 0xFF } (by decide) rfl rfl rfl (by decide)
      (by decide)).2.2.1 (by decide)⟩

/-- C6: for a connected pad with input allowed whose stick list has exactly one
right-stick-Y entry, with raw value v, byte 6 is the negation of v reduced to 8 bits,
(256 - v mod 256) mod 256; so raw value 0x01 yields 0xFF and raw value 0x00 yields 0x00. -/
theorem interrupt_transfer_whammy_inversion (K : PadConsts) (env : InputEnv)
    (idx n ep : Nat) (m : Machine) (pad : Pad) (cfg : cfg_ghltar) (s : AnalogStick)
    (hn : 27 ≤ n) (hallow : env.is_input_allowed = true)
    (hpad : env.pads[idx]? = some pad) (hcfg : env.players[idx]? = some cfg)
    (hconn : pad.m_port_status &&& K.CELL_PAD_STATUS_CONNECTED ≠ 0)
    (hone : right_y_sticks K pad.m_sticks = [s]) :
    (interrupt_transfer K env idx n ep m).machine.buf 6 = (256 - s.m_value % 256) % 256 ∧
    (s.m_value = 0x01 → (interrupt_transfer K env idx n ep m).machine.buf 6 = 0xFF) ∧
    (s.m_value = 0x00 → (interrupt_transfer K env idx n ep m).machine.buf 6 = 0x00) := by
  have hout := interrupt_transfer_live_buf K env idx n ep m pad cfg hn hallow hpad hcfg hconn
  have h := stick_loop_one_whammy K pad.m_sticks
    (apply_btns (pressed_btns cfg pad.m_buttons) (rest_defaults (memset m.buf 0 n))) s hone
  rw [← hout] at h
  refine ⟨h, ?_, ?_⟩
  · intro e; rw [h, e]
  · intro e; rw [h, e]

theorem interrupt_transfer_whammy_inversion_witness :
    27 ≤ 27 ∧ sampleEnv.is_input_allowed = true ∧ sampleEnv.pads[0]? = some samplePad ∧
    sampleEnv.players[0]? = some sampleCfg ∧
    samplePad.m_port_status &&& sampleConsts.CELL_PAD_STATUS_CONNECTED ≠ 0 ∧
    right_y_sticks sampleConsts samplePad.m_sticks = [{ m_offset := 5, m_value := 0x01 }] ∧
    (interrupt_transfer sampleConsts sampleEnv 0 27 1 sampleMachine).machine.buf 6 = 0xFF :=
  ⟨by decide, rfl, rfl, rfl, by decide, by decide,
    (interrupt_transfer_whammy_inversion sampleConsts sampleEnv 0 27 1 sampleMachine samplePad
      sampleCfg { m_offset := 5, m_value := 0x01 } (by decide) rfl rfl rfl (by decide)
      (by decide)).2.1 rfl⟩

/-! ## Independence of the previous buffer contents -/

/-- C7: for a buffer of n >= 27 bytes the n bytes written are a function of the input
snapshot (input gate, pads, mapping, slot index) and of n only: two calls with the same
snapshot agree on every byte whatever the previous buffer contents, the transfer record,
the endpoint and the clock are; in particular a second call that starts from the state
the first call left yields the same n bytes again. -/
theorem interrupt_transfer_idempotent (K : PadConsts) (env env2 : InputEnv)
    (idx n ep ep2 : Nat) (m m2 : Machine) (hn : 27 ≤ n)
    (hgate : env2.is_input_allowed = env.is_input_allowed)
    (hpads : env2.pads = env.pads) (hplayers : env2.players = env.players) :
    (∀ i, i < n →
      (interrupt_transfer K env2 idx n ep2 m2).machine.buf i
        = (interrupt_transfer K env idx n ep m).machine.buf i) ∧
    (∀ i, i < n →
      (interrupt_transfer K env2 idx n ep2
          (interrupt_transfer K env idx n ep m).machine).machine.buf i
        = (interrupt_transfer K env idx n ep m).machine.buf i) := by
  have hov : ∀ buf, overlay K env2 idx buf = overlay K env idx buf := by
    intro buf
    simp [overlay, hgate, hpads, hplayers]
  have key : ∀ (a b : Machine) (e e2 : Nat), ∀ i, i < n →
      (interrupt_transfer K env2 idx n e2 b).machine.buf i
        = (interrupt_transfer K env idx n e a).machine.buf i := by
    intro a b e e2 i hi
    rw [interrupt_transfer_machine K env2 idx n e2 b hn,
      interrupt_transfer_machine K env idx n e a hn]
    show overlay K env2 idx _ i = overlay K env idx _ i
    rw [hov]
    refine overlay_congr K env idx _ _ n hn ?_ i hi
    intro j hj
    rw [rest_defaults_memset _ n j hj, rest_defaults_memset _ n j hj]
  exact ⟨key m m2 ep ep2, key m _ ep ep2⟩

theorem interrupt_transfer_idempotent_witness :
    27 ≤ 27 ∧
    (∀ i, i < 27 →
      (interrupt_transfer sampleConsts { sampleEnv with get_timestamp := 9000 } 0 27 2
          (interrupt_transfer sampleConsts sampleEnv 0 27 1 sampleMachine).machine).machine.buf i
        = (interrupt_transfer sampleConsts sampleEnv 0 27 1 sampleMachine).machine.buf i) :=
  ⟨by decide,
    (interrupt_transfer_idempotent sampleConsts sampleEnv { sampleEnv with get_timestamp := 9000 }
      0 27 1 2 sampleMachine sampleMachine (by decide) rfl rfl rfl).2⟩

/-! ## The transfer record -/

/-- C8: whenever buf_size >= 27, on every path (input disallowed, lookup fault, pad
disconnected, live input overlaid) the transfer record ends with fake = true,
expected_count = buf_size, expected_result = HC_CC_NOERR and expected_time = the clock
value plus 1000 in 64-bit arithmetic, which is the clock value plus 1000 whenever that
fits in 64 bits. -/
theorem interrupt_transfer_transfer_record (K : PadConsts) (env : InputEnv)
    (idx n ep : Nat) (m : Machine) (hn : 27 ≤ n) :
    (interrupt_transfer K env idx n ep m).machine.transfer.fake = true ∧
    (interrupt_transfer K env idx n ep m).machine.transfer.expected_count = n ∧
    (interrupt_transfer K env idx n ep m).machine.transfer.expected_result = K.HC_CC_NOERR ∧
    (interrupt_transfer K env idx n ep m).machine.transfer.expected_time
      = (env.get_timestamp + 1000) % 2 ^ 64 ∧
    (env.get_timestamp + 1000 < 2 ^ 64 →
      (interrupt_transfer K env idx n ep m).machine.transfer.expected_time
        = env.get_timestamp + 1000) := by
  rw [interrupt_transfer_machine K env idx n ep m hn]
  refine ⟨rfl, rfl, rfl, rfl, fun h => ?_⟩
  exact Nat.mod_eq_of_lt h

theorem interrupt_transfer_transfer_record_witness :
    27 ≤ 27 ∧
    (interrupt_transfer sampleConsts sampleEnv 0 27 1 sampleMachine).machine.transfer.fake
      = true ∧
    (interrupt_transfer sampleConsts sampleEnv 0 27 1 sampleMachine).machine.transfer.expected_count
      = 27 ∧
    (interrupt_transfer sampleConsts sampleEnv 0 27 1 sampleMachine).machine.transfer.expected_result
      = sampleConsts.HC_CC_NOERR ∧
    (interrupt_transfer sampleConsts sampleEnv 0 27 1 sampleMachine).machine.transfer.expected_time
      = (sampleEnv.get_timestamp + 1000) % 2 ^ 64 ∧
    (sampleEnv.get_timestamp + 1000 < 2 ^ 64 →
      (interrupt_transfer sampleConsts sampleEnv 0 27 1 sampleMachine).machine.transfer.expected_time
        = sampleEnv.get_timestamp + 1000) :=
  ⟨by decide,
    interrupt_transfer_transfer_record sampleConsts sampleEnv 0 27 1 sampleMachine (by decide)⟩

/-! ## Fixed bytes -/

/-- C10: for every input snapshot and every buffer size n >= 27, a byte at an offset
outside 0, 1, 2, 4, 5, 6 and 19 holds its rest-state constant: byte 3 is 0x80, byte 22 is
0x01, bytes 24 and 26 are 0x02, and bytes 7 to 18, 20, 21, 23, 25 and every byte from
offset 27 up to the buffer size are 0x00. -/
theorem interrupt_transfer_fixed_bytes (K : PadConsts) (env : InputEnv)
    (idx n ep : Nat) (m : Machine) (hn : 27 ≤ n) :
    (∀ i, i < n → i ≠ 0 → i ≠ 1 → i ≠ 2 → i ≠ 4 → i ≠ 5 → i ≠ 6 → i ≠ 19 →
      (interrupt_transfer K env idx n ep m).machine.buf i = rest_report i) ∧
    (interrupt_transfer K env idx n ep m).machine.buf 3 = 0x80 ∧
    (interrupt_transfer K env idx n ep m).machine.buf 22 = 0x01 ∧
    (interrupt_transfer K env idx n ep m).machine.buf 24 = 0x02 ∧
    (interrupt_transfer K env idx n ep m).machine.buf 26 = 0x02 ∧
    (∀ i, i < n → (7 ≤ i ∧ i ≤ 18) ∨ i = 20 ∨ i = 21 ∨ i = 23 ∨ i = 25 ∨ 27 ≤ i →
      (interrupt_transfer K env idx n ep m).machine.buf i = 0x00) := by
  have key : ∀ i, i < n → i ≠ 0 → i ≠ 1 → i ≠ 2 → i ≠ 4 → i ≠ 5 → i ≠ 6 → i ≠ 19 →
      (interrupt_transfer K env idx n ep m).machine.buf i = rest_report i := by
    intro i hi h0 h1 h2 h4 h5 h6 h19
    rw [interrupt_transfer_machine K env idx n ep m hn]
    show overlay K env idx _ i = rest_report i
    rw [overlay_frame K env idx _ i h0 h1 h2 h4 h5 h6 h19, rest_defaults_memset _ n i hi]
  refine ⟨key, ?_, ?_, ?_, ?_, ?_⟩
  · exact key 3 (by omega) (by decide) (by decide) (by decide) (by decide) (by decide)
      (by decide) (by decide)
  · exact key 22 (by omega) (by decide) (by decide) (by decide) (by decide) (by decide)
      (by decide) (by decide)
  · exact key 24 (by omega) (by decide) (by decide) (by decide) (by decide) (by decide)
      (by decide) (by decide)
  · exact key 26 (by omega) (by decide) (by decide) (by decide) (by decide) (by decide)
      (by decide) (by decide)
  · intro i hi hcase
    rw [key i hi (by omega) (by omega) (by omega) (by omega) (by omega) (by omega) (by omega)]
    unfold rest_report
    rw [if_neg (by omega), if_neg (by omega), if_neg (by omega), if_neg (by omega)]

theorem interrupt_transfer_fixed_bytes_witness :
    27 ≤ 30 ∧
    (interrupt_transfer sampleConsts sampleEnv 0 30 1 sampleMachine).machine.buf 3 = 0x80 ∧
    (interrupt_transfer sampleConsts sampleEnv 0 30 1 sampleMachine).machine.buf 22 = 0x01 ∧
    (interrupt_transfer sampleConsts sampleEnv 0 30 1 sampleMachine).machine.buf 24 = 0x02 ∧
    (interrupt_transfer sampleConsts sampleEnv 0 30 1 sampleMachine).machine.buf 26 = 0x02 ∧
    (∀ i, i < 30 → (7 ≤ i ∧ i ≤ 18) ∨ i = 20 ∨ i = 21 ∨ i = 23 ∨ i = 25 ∨ 27 ≤ i →
      (interrupt_transfer sampleConsts sampleEnv 0 30 1 sampleMachine).machine.buf i = 0x00) :=
  ⟨by decide,
    (interrupt_transfer_fixed_bytes sampleConsts sampleEnv 0 30 1 sampleMachine (by decide)).2⟩

/-! ## control_transfer -/

/-- C9: the decision table of control_transfer. Request type 0x21 with request code 0x09:
buffer and log are unchanged and the result does not involve the default handler. Request
type 0x21 with any other code: the buffer is unchanged and exactly one unhandled-query entry
is appended to the log. Any other request type: the result is the default handler applied
once to the same six scalar arguments and to the state holding the same buffer, the same
log and the transfer record. In all three cases the transfer record is the one passed in
with fake set; in the third it is handed to the default handler that way. -/
theorem control_transfer_decision_table
    (base : Nat → Nat → Nat → Nat → Nat → Nat → Machine → Machine)
    (bmRequestType bRequest wValue wIndex wLength buf_size : Nat) (m : Machine) :
    (bmRequestType = 0x21 → bRequest = 0x09 →
      (control_transfer base bmRequestType bRequest wValue wIndex wLength buf_size m).buf = m.buf ∧
      (control_transfer base bmRequestType bRequest wValue wIndex wLength buf_size m).log = m.log ∧
      (control_transfer base bmRequestType bRequest wValue wIndex wLength buf_size m).transfer
        = { m.transfer with fake := true }) ∧
    (bmRequestType = 0x21 → bRequest ≠ 0x09 →
      (control_transfer base bmRequestType bRequest wValue wIndex wLength buf_size m).buf = m.buf ∧
      (∃ d, (control_transfer base bmRequestType bRequest wValue wIndex wLength buf_size m).log
        = m.log ++ [d]) ∧
      (control_transfer base bmRequestType bRequest wValue wIndex wLength buf_size m).transfer
        = { m.transfer with fake := true }) ∧
    (bmRequestType ≠ 0x21 →
      control_transfer base bmRequestType bRequest wValue wIndex wLength buf_size m
        = base bmRequestType bRequest wValue wIndex wLength buf_size
            { buf := m.buf, transfer := { m.transfer with fake := true }, log := m.log }) := by
  refine ⟨?_, ?_, ?_⟩
  · intro h1 h2
    simp [control_transfer, h1, h2]
  · intro h1 h2
    simp [control_transfer, h1, h2]
  · intro h1
    simp [control_transfer, h1]

theorem control_transfer_decision_table_witness :
    ((control_transfer sampleBase 0x21 0x09 1 2 3 4 sampleMachine).buf = sampleMachine.buf ∧
      (control_transfer sampleBase 0x21 0x09 1 2 3 4 sampleMachine).log = sampleMachine.log ∧
      (control_transfer sampleBase 0x21 0x09 1 2 3 4 sampleMachine).transfer
        = { sampleMachine.transfer with fake := true }) ∧
    ((control_transfer sampleBase 0x21 0x0A 1 2 3 4 sampleMachine).buf = sampleMachine.buf ∧
      (∃ d, (control_transfer sampleBase 0x21 0x0A 1 2 3 4 sampleMachine).log
        = sampleMachine.log ++ [d]) ∧
      (control_transfer sampleBase 0x21 0x0A 1 2 3 4 sampleMachine).transfer
        = { sampleMachine.transfer with fake := true }) ∧
    control_transfer sampleBase 0xA1 0x01 1 2 3 4 sampleMachine
      = sampleBase 0xA1 0x01 1 2 3 4
          { buf := sampleMachine.buf, transfer := { sampleMachine.transfer with fake := true },
            log := sampleMachine.log } :=
  ⟨(control_transfer_decision_table sampleBase 0x21 0x09 1 2 3 4 sampleMachine).1 rfl rfl,
    (control_transfer_decision_table sampleBase 0x21 0x0A 1 2 3 4 sampleMachine).2.1 rfl
      (by decide),
    (control_transfer_decision_table sampleBase 0xA1 0x01 1 2 3 4 sampleMachine).2.2
      (by decide)⟩

/-! ## The descriptor tree -/

/-- C12, the claim as stated fails: the configuration node the constructor builds has
four children, not five. -/
theorem constructor_five_children_counterexample :
    (usb_device_ghltar 0 [0, 0, 0, 0, 0, 0, 0]).device.subnodes.map
        (fun config0 => config0.subnodes.length) = [4] ∧
    ¬ ((usb_device_ghltar 0 [0, 0, 0, 0, 0, 0, 0]).device.subnodes.map
        (fun config0 => config0.subnodes.length) = [5]) :=
  ⟨rfl, by decide⟩

/-- C12, amended: for every controller index and location the constructor builds exactly
the tree of the specification: a device root (USB version 0x0200, class, subclass and
protocol 0, vendor 0x12BA, product 0x074B, device release 0x0100, one configuration) with
exactly one child, the configuration (total length 0x0029, 1 interface, configuration
value 1, attributes 0x80, max power 0x96), which has exactly four children, in this order:
the interface (class 0x03, subclass 0, protocol 0), the HID descriptor (version 0x0111,
country 0, 1 report descriptor, type 0x22, length 0x001D), endpoint 0x81 and endpoint
0x01 (both attributes 0x03, max packet size 0x0020, interval 1); the tree does not depend
on the controller index. -/
theorem constructor_descriptor_tree (controller_index other_index : Nat) (location : List Nat) :
    (usb_device_ghltar controller_index location).device = expected_tree ∧
    (usb_device_ghltar controller_index location).device.subnodes.length = 1 ∧
    (usb_device_ghltar controller_index location).device.subnodes.map
        (fun config0 => config0.subnodes.length) = [4] ∧
    (usb_device_ghltar controller_index location).device
      = (usb_device_ghltar other_index location).device :=
  ⟨rfl, rfl, rfl, rfl⟩

/-! ## Addition and OR -/

/-- C11, the claim as stated fails: when two pressed buttons both map to W1, the handler
adds 0x01 twice and reports byte 0 = 0x02, while the OR variant reports byte 0 = 0x01. -/
theorem interrupt_transfer_or_counterexample :
    (interrupt_transfer sampleConsts sampleEnvShared 0 27 1 sampleMachine).machine.buf 0 = 0x02 ∧
    (interrupt_transfer_or sampleConsts sampleEnvShared 0 27 1 sampleMachine).machine.buf 0
      = 0x01 ∧
    interrupt_transfer_or sampleConsts sampleEnvShared 0 27 1 sampleMachine
      ≠ interrupt_transfer sampleConsts sampleEnvShared 0 27 1 sampleMachine :=
  ⟨by decide, by decide, fun h => absurd (congrArg (fun o => o.machine.buf 0) h) (by decide)⟩

/-- C11, amended: for every input snapshot in which no fret and no menu identifier is
produced by more than one pressed button of the bound pad, the handler with each addition
on byte 0 and byte 1 replaced by a bitwise OR with the same constant gives the same
outcome, hence the same report, as the handler itself. -/
theorem interrupt_transfer_or_eq (K : PadConsts) (env : InputEnv)
    (idx n ep : Nat) (m : Machine)
    (hdistinct : ∀ pad cfg, env.pads[idx]? = some pad → env.players[idx]? = some cfg →
      ((pressed_btns cfg pad.m_buttons).filter is_accumulated).Nodup) :
    interrupt_transfer_or K env idx n ep m = interrupt_transfer K env idx n ep m := by
  unfold interrupt_transfer_or interrupt_transfer
  by_cases hn : n ≥ 27
  · rw [if_neg (not_not.mpr hn), if_neg (not_not.mpr hn)]
    cases hg : env.is_input_allowed with
    | false => rfl
    | true =>
      cases hp : at32 env.pads idx with
      | error e => rfl
      | ok pad =>
        cases hc : at32 env.players idx with
        | error e => rfl
        | ok cfg =>
          have key := button_loops_agree cfg pad.m_buttons m.buf n
            (hdistinct pad cfg (at32_ok_getElem _ _ _ hp) (at32_ok_getElem _ _ _ hc))
          simp only [key]
  · rw [if_pos hn, if_pos hn]

theorem interrupt_transfer_or_eq_witness :
    (∀ pad cfg, sampleEnv.pads[0]? = some pad → sampleEnv.players[0]? = some cfg →
      ((pressed_btns cfg pad.m_buttons).filter is_accumulated).Nodup) ∧
    interrupt_transfer_or sampleConsts sampleEnv 0 27 1 sampleMachine
      = interrupt_transfer sampleConsts sampleEnv 0 27 1 sampleMachine ∧
    (interrupt_transfer_or sampleConsts sampleEnv 0 27 1 sampleMachine).machine.buf 0 = 0x07 :=
  have h : ∀ pad cfg, sampleEnv.pads[0]? = some pad → sampleEnv.players[0]? = some cfg →
      ((pressed_btns cfg pad.m_buttons).filter is_accumulated).Nodup := by
    intro pad cfg hp hc
    have e1 : pad = samplePad := by
      have : some samplePad = some pad := hp
      exact (Option.some.inj this).symm
    have e2 : cfg = sampleCfg := by
      have : some sampleCfg = some cfg := hc
      exact (Option.some.inj this).symm
    subst e1 e2
    decide
  ⟨h, interrupt_transfer_or_eq sampleConsts sampleEnv 0 27 1 sampleMachine h, by decide⟩

/-! ## Strum -/

/-- C13: for a connected pad with input allowed, byte 4 is 0x80 when no pressed button maps
to strum-up or strum-down; otherwise it is decided by the last pressed button of the list
that maps to a strum direction: 0xFF if that is strum-down, 0x00 if it is strum-up. -/
theorem interrupt_transfer_strum_last_wins (K : PadConsts) (env : InputEnv)
    (idx n ep : Nat) (m : Machine) (pad : Pad) (cfg : cfg_ghltar)
    (hn : 27 ≤ n) (hallow : env.is_input_allowed = true)
    (hpad : env.pads[idx]? = some pad) (hcfg : env.players[idx]? = some cfg)
    (hconn : pad.m_port_status &&& K.CELL_PAD_STATUS_CONNECTED ≠ 0) :
    ((pressed_btns cfg pad.m_buttons).filter is_strum = [] →
      (interrupt_transfer K env idx n ep m).machine.buf 4 = 0x80) ∧
    (((pressed_btns cfg pad.m_buttons).filter is_strum).getLast? = some ghltar_btn.strum_down →
      (interrupt_transfer K env idx n ep m).machine.buf 4 = 0xFF) ∧
    (((pressed_btns cfg pad.m_buttons).filter is_strum).getLast? = some ghltar_btn.strum_up →
      (interrupt_transfer K env idx n ep m).machine.buf 4 = 0x00) := by
  have h4 : (interrupt_transfer K env idx n ep m).machine.buf 4
      = strum_value 0x80 ((pressed_btns cfg pad.m_buttons).filter is_strum).getLast? := by
    rw [interrupt_transfer_live_buf K env idx n ep m pad cfg hn hallow hpad hcfg hconn,
      stick_loop_frame K _ _ 4 (by decide) (by decide) (by decide), apply_btns_byte4]
    rfl
  refine ⟨?_, ?_, ?_⟩
  · intro h; rw [h4, h]; rfl
  · intro h; rw [h4, h]; rfl
  · intro h; rw [h4, h]; rfl

theorem interrupt_transfer_strum_last_wins_witness :
    27 ≤ 27 ∧ sampleEnvStrum.is_input_allowed = true ∧
    sampleEnvStrum.pads[0]? = some samplePadStrum ∧
    sampleEnvStrum.players[0]? = some sampleCfg ∧
    samplePadStrum.m_port_status &&& sampleConsts.CELL_PAD_STATUS_CONNECTED ≠ 0 ∧
    ((pressed_btns sampleCfg samplePadStrum.m_buttons).filter is_strum).getLast?
      = some ghltar_btn.strum_up ∧
    (interrupt_transfer sampleConsts sampleEnvStrum 0 27 1 sampleMachine).machine.buf 4 = 0x00 :=
  ⟨by decide, rfl, rfl, rfl, by decide, by decide,
    (interrupt_transfer_strum_last_wins sampleConsts sampleEnvStrum 0 27 1 sampleMachine
      samplePadStrum sampleCfg (by decide) rfl rfl rfl (by decide)).2.2 (by decide)⟩

/-! ## The unhandled-query diagnostic -/

/-- C15: for request type 0x21 and a request code other than 0x09, the handler appends one
diagnostic that carries the buffer size, the request type, the request code and, as first
byte, buf[0] when buf_size > 0 and -1 when buf_size = 0; when buf_size = 0 the contents
of the buffer have no influence on the log, on the transfer record or on the buffer
left behind. -/
theorem control_transfer_unhandled_query
    (base : Nat → Nat → Nat → Nat → Nat → Nat → Machine → Machine)
    (bmRequestType bRequest wValue wIndex wLength buf_size : Nat) (m : Machine)
    (htype : bmRequestType = 0x21) (hcode : bRequest ≠ 0x09) :
    (control_transfer base bmRequestType bRequest wValue wIndex wLength buf_size m).log
      = m.log ++
          [{ buf_size := buf_size
             first_byte := if buf_size > 0 then (m.buf 0 : Int) else -1
             bRequest := bRequest
             bmRequestType := bmRequestType }] ∧
    (buf_size = 0 → ∀ other : Nat → Nat,
      (control_transfer base bmRequestType bRequest wValue wIndex wLength buf_size
          { m with buf := other }).log
        = m.log ++
          [{ buf_size := 0, first_byte := -1, bRequest := bRequest
             bmRequestType := bmRequestType }] ∧
      (control_transfer base bmRequestType bRequest wValue wIndex wLength buf_size
          { m with buf := other }).transfer
        = (control_transfer base bmRequestType bRequest wValue wIndex wLength buf_size
            m).transfer ∧
      (control_transfer base bmRequestType bRequest wValue wIndex wLength buf_size
          { m with buf := other }).buf = other) := by
  refine ⟨?_, ?_⟩
  · simp [control_transfer, htype, hcode]
  · intro hz other
    subst hz
    simp [control_transfer, htype, hcode]

theorem control_transfer_unhandled_query_witness :
    (0x21 : Nat) = 0x21 ∧ (0x0A : Nat) ≠ 0x09 ∧
    (control_transfer sampleBase 0x21 0x0A 1 2 3 4 sampleMachine).log
      = [{ buf_size := 4, first_byte := 0xAA, bRequest := 0x0A, bmRequestType := 0x21 }] ∧
    (control_transfer sampleBase 0x21 0x0A 1 2 3 0 sampleMachine).log
      = [{ buf_size := 0, first_byte := -1, bRequest := 0x0A, bmRequestType := 0x21 }] :=
  ⟨rfl, by decide,
    (control_transfer_unhandled_query sampleBase 0x21 0x0A 1 2 3 4 sampleMachine rfl
      (by decide)).1,
    (control_transfer_unhandled_query sampleBase 0x21 0x0A 1 2 3 0 sampleMachine rfl
      (by decide)).1⟩

/-! ## Order of the buttons -/

/-- C16: for a connected pad with input allowed, replacing the button list of the pad by
any permutation of it leaves byte 0 and byte 1 of the report as they were; the same holds
for every byte other than bytes 2 and 4. -/
theorem interrupt_transfer_order_independent (K : PadConsts) (env : InputEnv)
    (idx n ep : Nat) (m : Machine) (pad : Pad) (cfg : cfg_ghltar) (buttons : List Button)
    (hn : 27 ≤ n) (hallow : env.is_input_allowed = true)
    (hpad : env.pads[idx]? = some pad) (hcfg : env.players[idx]? = some cfg)
    (hconn : pad.m_port_status &&& K.CELL_PAD_STATUS_CONNECTED ≠ 0)
    (hperm : buttons.Perm pad.m_buttons) :
    (interrupt_transfer K (with_pad env idx { pad with m_buttons := buttons }) idx n ep
        m).machine.buf 0
      = (interrupt_transfer K env idx n ep m).machine.buf 0 ∧
    (interrupt_transfer K (with_pad env idx { pad with m_buttons := buttons }) idx n ep
        m).machine.buf 1
      = (interrupt_transfer K env idx n ep m).machine.buf 1 ∧
    (∀ i, i ≠ 2 → i ≠ 4 →
      (interrupt_transfer K (with_pad env idx { pad with m_buttons := buttons }) idx n ep
          m).machine.buf i
        = (interrupt_transfer K env idx n ep m).machine.buf i) := by
  have hpad2 := with_pad_getElem env idx pad { pad with m_buttons := buttons } hpad
  have hp : (pressed_btns cfg buttons).Perm (pressed_btns cfg pad.m_buttons) :=
    List.Perm.filterMap _ hperm
  have h0 : rest_defaults (memset m.buf 0 n) 0 = 0 := rfl
  have h1 : rest_defaults (memset m.buf 0 n) 1 = 0 := rfl
  have hbtns : ∀ j, j ≠ 2 ∧ j ≠ 4 →
      apply_btns (pressed_btns cfg buttons) (rest_defaults (memset m.buf 0 n)) j
        = apply_btns (pressed_btns cfg pad.m_buttons) (rest_defaults (memset m.buf 0 n)) j := by
    intro j hj
    by_cases hj0 : j = 0
    · subst hj0
      rw [apply_btns_byte0 _ _ (by rw [h0]; decide), apply_btns_byte0 _ _ (by rw [h0]; decide),
        List.Perm.sum_eq (List.Perm.map fret_bit hp)]
    · by_cases hj1 : j = 1
      · subst hj1
        rw [apply_btns_byte1 _ _ (by rw [h1]; decide),
          apply_btns_byte1 _ _ (by rw [h1]; decide),
          List.Perm.sum_eq (List.Perm.map menu_bit hp)]
      · rw [apply_btns_frame _ _ j hj0 hj1 hj.1 hj.2, apply_btns_frame _ _ j hj0 hj1 hj.1 hj.2]
  have key : ∀ i, i ≠ 2 ∧ i ≠ 4 →
      (interrupt_transfer K (with_pad env idx { pad with m_buttons := buttons }) idx n ep
          m).machine.buf i
        = (interrupt_transfer K env idx n ep m).machine.buf i := by
    intro i hi
    rw [interrupt_transfer_live_buf K (with_pad env idx { pad with m_buttons := buttons }) idx
        n ep m { pad with m_buttons := buttons } cfg hn hallow hpad2 hcfg hconn,
      interrupt_transfer_live_buf K env idx n ep m pad cfg hn hallow hpad hcfg hconn]
    exact stick_loop_congr K pad.m_sticks _ _ (fun j => j ≠ 2 ∧ j ≠ 4)
      ⟨by decide, by decide⟩ hbtns i hi
  exact ⟨key 0 ⟨by decide, by decide⟩, key 1 ⟨by decide, by decide⟩,
    fun i h2 h4 => key i ⟨h2, h4⟩⟩

theorem interrupt_transfer_order_independent_witness :
    27 ≤ 27 ∧ sampleEnv.is_input_allowed = true ∧ sampleEnv.pads[0]? = some samplePad ∧
    sampleEnv.players[0]? = some sampleCfg ∧
    samplePad.m_port_status &&& sampleConsts.CELL_PAD_STATUS_CONNECTED ≠ 0 ∧
    samplePad.m_buttons.reverse.Perm samplePad.m_buttons ∧
    (interrupt_transfer sampleConsts
        (with_pad sampleEnv 0 { samplePad with m_buttons := samplePad.m_buttons.reverse })
        0 27 1 sampleMachine).machine.buf 0
      = (interrupt_transfer sampleConsts sampleEnv 0 27 1 sampleMachine).machine.buf 0 ∧
    (interrupt_transfer sampleConsts
        (with_pad sampleEnv 0 { samplePad with m_buttons := samplePad.m_buttons.reverse })
        0 27 1 sampleMachine).machine.buf 1
      = (interrupt_transfer sampleConsts sampleEnv 0 27 1 sampleMachine).machine.buf 1 :=
  ⟨by decide, rfl, rfl, rfl, by decide, List.reverse_perm _,
    (interrupt_transfer_order_independent sampleConsts sampleEnv 0 27 1 sampleMachine samplePad
      sampleCfg samplePad.m_buttons.reverse (by decide) rfl rfl rfl (by decide)
      (List.reverse_perm _)).1,
    (interrupt_transfer_order_independent sampleConsts sampleEnv 0 27 1 sampleMachine samplePad
      sampleCfg samplePad.m_buttons.reverse (by decide) rfl rfl rfl (by decide)
      (List.reverse_perm _)).2.1⟩

/-! ## Irrelevant inputs -/

/-- C14: for a connected pad with input allowed, a pad obtained by removing buttons and
sticks that cannot matter (buttons that are not pressed, pressed buttons for which the
configuration returns nothing or the sentinel `count`, sticks whose offset is neither
right-stick-X nor right-stick-Y) produces the same outcome, hence a byte-identical report.
The removal is expressed by: the new lists are sublists of the old ones and contain the
same relevant entries. -/
theorem interrupt_transfer_irrelevant_inputs (K : PadConsts) (env : InputEnv)
    (idx n ep : Nat) (m : Machine) (pad : Pad) (cfg : cfg_ghltar)
    (buttons : List Button) (sticks : List AnalogStick)
    (hn : 27 ≤ n) (hallow : env.is_input_allowed = true)
    (hpad : env.pads[idx]? = some pad) (hcfg : env.players[idx]? = some cfg)
    (hconn : pad.m_port_status &&& K.CELL_PAD_STATUS_CONNECTED ≠ 0)
    (_hbuttons : buttons.Sublist pad.m_buttons)
    (hbkeep : buttons.filter (relevant_button cfg) = pad.m_buttons.filter (relevant_button cfg))
    (_hsticks : sticks.Sublist pad.m_sticks)
    (hskeep : sticks.filter (relevant_stick K) = pad.m_sticks.filter (relevant_stick K)) :
    interrupt_transfer K
        (with_pad env idx { pad with m_buttons := buttons, m_sticks := sticks }) idx n ep m
      = interrupt_transfer K env idx n ep m := by
  have hpad2 := with_pad_getElem env idx pad
    { pad with m_buttons := buttons, m_sticks := sticks } hpad
  rw [interrupt_transfer_live K
      (with_pad env idx { pad with m_buttons := buttons, m_sticks := sticks }) idx n ep m
      { pad with m_buttons := buttons, m_sticks := sticks } cfg hn hallow hpad2 hcfg hconn,
    interrupt_transfer_live K env idx n ep m pad cfg hn hallow hpad hcfg hconn]
  have hbuf : sticks.foldl (stick_body K)
        (buttons.foldl (button_body cfg) (rest_defaults (memset m.buf 0 n)))
      = pad.m_sticks.foldl (stick_body K)
        (pad.m_buttons.foldl (button_body cfg) (rest_defaults (memset m.buf 0 n))) := by
    rw [button_loop_eq, button_loop_eq, ← apply_btns_relevant cfg buttons,
      ← apply_btns_relevant cfg pad.m_buttons, hbkeep, ← stick_loop_relevant K sticks,
      ← stick_loop_relevant K pad.m_sticks, hskeep]
  show Outcome.mk _ _ = Outcome.mk _ _
  simp only [hbuf]
  rfl

theorem interrupt_transfer_irrelevant_inputs_witness :
    27 ≤ 27 ∧ sampleEnvStrum.is_input_allowed = true ∧
    sampleEnvStrum.pads[0]? = some samplePadStrum ∧
    sampleEnvStrum.players[0]? = some sampleCfg ∧
    samplePadStrum.m_port_status &&& sampleConsts.CELL_PAD_STATUS_CONNECTED ≠ 0 ∧
    (samplePadStrum.m_buttons.filter (relevant_button sampleCfg)).Sublist
      samplePadStrum.m_buttons ∧
    (samplePadStrum.m_sticks.filter (relevant_stick sampleConsts)).Sublist
      samplePadStrum.m_sticks ∧
    samplePadStrum.m_buttons.filter (relevant_button sampleCfg)
      = [{ m_offset := 0, m_outKeyCode := 6, m_pressed := true },
         { m_offset := 0, m_outKeyCode := 7, m_pressed := true }] ∧
    samplePadStrum.m_sticks.filter (relevant_stick sampleConsts)
      = [{ m_offset := 4, m_value := 0x80 }, { m_offset := 5, m_value := 0x80 }] ∧
    interrupt_transfer sampleConsts
        (with_pad sampleEnvStrum 0
          { samplePadStrum with
            m_buttons := samplePadStrum.m_buttons.filter (relevant_button sampleCfg)
            m_sticks := samplePadStrum.m_sticks.filter (relevant_stick sampleConsts) })
        0 27 1 sampleMachine
      = interrupt_transfer sampleConsts sampleEnvStrum 0 27 1 sampleMachine :=
  ⟨by decide, rfl, rfl, rfl, by decide, List.filter_sublist _, List.filter_sublist _,
    by decide, by decide,
    interrupt_transfer_irrelevant_inputs sampleConsts sampleEnvStrum 0 27 1 sampleMachine
      samplePadStrum sampleCfg (samplePadStrum.m_buttons.filter (relevant_button sampleCfg))
      (samplePadStrum.m_sticks.filter (relevant_stick sampleConsts))
      (by decide) rfl rfl rfl (by decide) (List.filter_sublist _) (by decide)
      (List.filter_sublist _) (by decide)⟩

/-! ## A connected pad at rest -/

/-- C17: for a connected pad with input allowed in which no pressed button has a mapping
and every right-stick-X and right-stick-Y entry has raw value 0x80, the handler returns
normally and every one of the n >= 27 bytes equals the rest-state report. -/
theorem interrupt_transfer_connected_at_rest (K : PadConsts) (env : InputEnv)
    (idx n ep : Nat) (m : Machine) (pad : Pad) (cfg : cfg_ghltar)
    (hn : 27 ≤ n) (hallow : env.is_input_allowed = true)
    (hpad : env.pads[idx]? = some pad) (hcfg : env.players[idx]? = some cfg)
    (hconn : pad.m_port_status &&& K.CELL_PAD_STATUS_CONNECTED ≠ 0)
    (hnone : pressed_btns cfg pad.m_buttons = [])
    (hneutral : ∀ s, s ∈ pad.m_sticks →
      s.m_offset = K.CELL_PAD_BTN_OFFSET_ANALOG_RIGHT_X ∨
        s.m_offset = K.CELL_PAD_BTN_OFFSET_ANALOG_RIGHT_Y → s.m_value = 0x80) :
    (interrupt_transfer K env idx n ep m).result = Except.ok () ∧
    ∀ i, i < n → (interrupt_transfer K env idx n ep m).machine.buf i = rest_report i := by
  refine ⟨?_, ?_⟩
  · rw [interrupt_transfer_live K env idx n ep m pad cfg hn hallow hpad hcfg hconn]
  · intro i hi
    rw [interrupt_transfer_live_buf K env idx n ep m pad cfg hn hallow hpad hcfg hconn, hnone]
    have hb : apply_btns [] (rest_defaults (memset m.buf 0 n))
        = rest_defaults (memset m.buf 0 n) := rfl
    rw [hb, stick_loop_neutral K pad.m_sticks _ rfl rfl rfl hneutral]
    exact rest_defaults_memset m.buf n i hi

theorem interrupt_transfer_connected_at_rest_witness :
    27 ≤ 27 ∧ sampleEnvAtRest.is_input_allowed = true ∧
    sampleEnvAtRest.pads[0]? = some samplePadAtRest ∧
    sampleEnvAtRest.players[0]? = some sampleCfg ∧
    samplePadAtRest.m_port_status &&& sampleConsts.CELL_PAD_STATUS_CONNECTED ≠ 0 ∧
    pressed_btns sampleCfg samplePadAtRest.m_buttons = [] ∧
    (∀ s, s ∈ samplePadAtRest.m_sticks →
      s.m_offset = sampleConsts.CELL_PAD_BTN_OFFSET_ANALOG_RIGHT_X ∨
        s.m_offset = sampleConsts.CELL_PAD_BTN_OFFSET_ANALOG_RIGHT_Y → s.m_value = 0x80) ∧
    (interrupt_transfer sampleConsts sampleEnvAtRest 0 27 1 sampleMachine).result
      = Except.ok () ∧
    (∀ i, i < 27 →
      (interrupt_transfer sampleConsts sampleEnvAtRest 0 27 1 sampleMachine).machine.buf i
        = rest_report i) :=
  ⟨by decide, rfl, rfl, rfl, by decide, by decide, by decide,
    interrupt_transfer_connected_at_rest sampleConsts sampleEnvAtRest 0 27 1 sampleMachine
      samplePadAtRest sampleCfg (by decide) rfl rfl rfl (by decide) (by decide) (by decide)⟩

/-! ## Value ranges -/

/-- C18: for every input snapshot and every buffer size n >= 27, byte 2 of the report is
one of 0x0F, 0x02, 0x06 and bytes 4 and 5 are each one of 0x00, 0x80, 0xFF; and whenever
the pressed buttons of the bound pad map to pairwise distinct guitar-button identifiers,
byte 0 is at most 0x3F and byte 1 is at most 0x07. -/
theorem interrupt_transfer_well_formed (K : PadConsts) (env : InputEnv)
    (idx n ep : Nat) (m : Machine) (hn : 27 ≤ n) :
    ((interrupt_transfer K env idx n ep m).machine.buf 2 = 0x0F ∨
      (interrupt_transfer K env idx n ep m).machine.buf 2 = 0x02 ∨
      (interrupt_transfer K env idx n ep m).machine.buf 2 = 0x06) ∧
    ((interrupt_transfer K env idx n ep m).machine.buf 4 = 0x00 ∨
      (interrupt_transfer K env idx n ep m).machine.buf 4 = 0x80 ∨
      (interrupt_transfer K env idx n ep m).machine.buf 4 = 0xFF) ∧
    ((interrupt_transfer K env idx n ep m).machine.buf 5 = 0x00 ∨
      (interrupt_transfer K env idx n ep m).machine.buf 5 = 0x80 ∨
      (interrupt_transfer K env idx n ep m).machine.buf 5 = 0xFF) ∧
    ((∀ pad cfg, env.pads[idx]? = some pad → env.players[idx]? = some cfg →
        (pressed_btns cfg pad.m_buttons).Nodup) →
      (interrupt_transfer K env idx n ep m).machine.buf 0 ≤ 0x3F ∧
      (interrupt_transfer K env idx n ep m).machine.buf 1 ≤ 0x07) := by
  have hm := interrupt_transfer_machine K env idx n ep m hn
  have hbuf : (interrupt_transfer K env idx n ep m).machine.buf
      = overlay K env idx (rest_defaults (memset m.buf 0 n)) := by rw [hm]
  rw [hbuf]
  have h0 : rest_defaults (memset m.buf 0 n) 0 = 0 := rfl
  have h1 : rest_defaults (memset m.buf 0 n) 1 = 0 := rfl
  have h2 : rest_defaults (memset m.buf 0 n) 2 = 0x0F := rfl
  have h4 : rest_defaults (memset m.buf 0 n) 4 = 0x80 := rfl
  have h5 : rest_defaults (memset m.buf 0 n) 5 = 0x80 := rfl
  rcases overlay_cases K env idx with h | ⟨pad, cfg, -, hpad, hcfg, -, h⟩
  · rw [h, h0, h1, h2, h4, h5]
    exact ⟨Or.inl rfl, Or.inr (Or.inl rfl), Or.inr (Or.inl rfl), fun _ => ⟨by decide, by decide⟩⟩
  · rw [h]
    refine ⟨?_, ?_, ?_, ?_⟩
    · rw [stick_loop_frame K _ _ 2 (by decide) (by decide) (by decide)]
      have hc := apply_btns_byte2_cases (pressed_btns cfg pad.m_buttons)
        (rest_defaults (memset m.buf 0 n))
      rw [h2] at hc
      exact hc
    · rw [stick_loop_frame K _ _ 4 (by decide) (by decide) (by decide), apply_btns_byte4, h4]
      rcases strum_value_cases 0x80
        ((pressed_btns cfg pad.m_buttons).filter is_strum).getLast? with e | e | e
      · exact Or.inr (Or.inl e)
      · exact Or.inl e
      · exact Or.inr (Or.inr e)
    · have hc := stick_loop_byte5_cases K pad.m_sticks
        (apply_btns (pressed_btns cfg pad.m_buttons) (rest_defaults (memset m.buf 0 n)))
      rw [apply_btns_frame _ _ 5 (by decide) (by decide) (by decide) (by decide), h5] at hc
      rcases hc with e | e | e
      · exact Or.inr (Or.inl e)
      · exact Or.inl e
      · exact Or.inr (Or.inr e)
    · intro hdistinct
      have hnd := hdistinct pad cfg hpad hcfg
      rw [stick_loop_frame K _ _ 0 (by decide) (by decide) (by decide),
        stick_loop_frame K _ _ 1 (by decide) (by decide) (by decide),
        apply_btns_byte0 _ _ (by rw [h0]; decide), apply_btns_byte1 _ _ (by rw [h1]; decide),
        h0, h1, Nat.zero_add, Nat.zero_add]
      have hs0 := sum_fret_bit_le _ hnd
      have hs1 := sum_menu_bit_le _ hnd
      exact ⟨Nat.le_trans (Nat.mod_le _ _) hs0, Nat.le_trans (Nat.mod_le _ _) hs1⟩

theorem interrupt_transfer_well_formed_witness :
    27 ≤ 27 ∧
    (∀ pad cfg, sampleEnv.pads[0]? = some pad → sampleEnv.players[0]? = some cfg →
      (pressed_btns cfg pad.m_buttons).Nodup) ∧
    (interrupt_transfer sampleConsts sampleEnv 0 27 1 sampleMachine).machine.buf 0 ≤ 0x3F ∧
    (interrupt_transfer sampleConsts sampleEnv 0 27 1 sampleMachine).machine.buf 1 ≤ 0x07 :=
  have h : ∀ pad cfg, sampleEnv.pads[0]? = some pad → sampleEnv.players[0]? = some cfg →
      (pressed_btns cfg pad.m_buttons).Nodup := by
    intro pad cfg hp hc
    have e1 : pad = samplePad := by
      have : some samplePad = some pad := hp
      exact (Option.some.inj this).symm
    have e2 : cfg = sampleCfg := by
      have : some sampleCfg = some cfg := hc
      exact (Option.some.inj this).symm
    subst e1 e2
    decide
  ⟨by decide, h,
    (interrupt_transfer_well_formed sampleConsts sampleEnv 0 27 1 sampleMachine
      (by decide)).2.2.2 h⟩

end GHLtar
